import Mathlib

/-!
# flatsouls: entity store and swept intersection tester

A shallow embedding of `src/flat.cpp` (the entity table with its priority
eviction, `entity_push`, the segment-versus-face test `collision_plane`, the
collision resolver `handle_collision`, the kind check of `main_loop`, the 2D
tests `collision_line` and `physics_rect_collide`) and of the stack allocator
`stack_push_ex` of `src/flat_utils.c`, followed by the properties established
about them.

Conventions of the embedding:

* `float` values are read as exact rationals (`ℚ`).  The literal `0.0001f` is
  `1/10000` in `collision_plane` and `handle_collision`; in `collision_line`,
  whose claim names the threshold, it is the binary32 value `float_0_0001` that
  the compiler stores for it.
* The definitions ending in `_fl` repeat the resolver with every operation
  rounded; they are used where the rounding of binary32 arithmetic decides a
  claim.
* `enum` values (`EntityType`, `EntityPriority`, `Direction`) are C integers and
  are kept as `Int`, so values outside the enumerators stay representable.
* `State.entities` is the array `entities[256]`, read as a map from slot index
  to entity; `State.num_entities` is the `int` count, which the program zeroes
  at start-up and only ever increments, kept as a natural number.
* Output parameters (`float *t_out, *nx_out, ...`) become a record that is
  passed in and returned.
* The entity pointer `e` of `handle_collision` is the slot index `ei` of the
  entity in the table (`e = s->entities + ei`, as `main_loop` calls it).
* The two-float `normalize` of `flat_math.h` is not among the sources; the
  resolver takes it as a parameter.
* A call that ends in `abort()` (through `die`) is the value `none`.
* Addresses and sizes of the stack allocator are integers (0 is the null
  pointer); `long` arithmetic is read without overflow.
-/

set_option autoImplicit false

/-! ## Data model -/

/-- Two floats, `v2` of `flat_math.h`. -/
structure v2 where
  x : ℚ
  y : ℚ
deriving DecidableEq, Repr

/-- Three floats, `v3` of `flat_math.h`. -/
structure v3 where
  x : ℚ
  y : ℚ
  z : ℚ
deriving DecidableEq, Repr

/-- Axis-aligned box given by two corners, `Cube` of `flat_math.h`. -/
structure Cube where
  x0 : ℚ
  y0 : ℚ
  z0 : ℚ
  x1 : ℚ
  y1 : ℚ
  z1 : ℚ
deriving DecidableEq, Repr

/-- Enumerators of `enum EntityType`. -/
def ENTITY_TYPE_NULL : Int := 0
def ENTITY_TYPE_PLAYER : Int := 1
def ENTITY_TYPE_WALL : Int := 2
def ENTITY_TYPE_MONSTER : Int := 3
def ENTITY_TYPE_DERPER : Int := 4
def ENTITY_TYPE_THING : Int := 5
def ENTITY_TYPE_COUNT : Int := 6

/-- Enumerators of `enum EntityPriority`. -/
def PRIORITY_UNIMPORTANT : Int := -1
def PRIORITY_MAP : Int := 0
def PRIORITY_PLAYER : Int := 1

/-- Enumerators of `enum Direction`. -/
def DIR_UP : Int := 0
def DIR_DOWN : Int := 1
def DIR_LEFT : Int := 2
def DIR_RIGHT : Int := 3

/-- The record `struct Entity`. -/
structure Entity where
  type : Int
  pos : v3
  vel : v3
  priority : Int
  hitbox : Cube
  animation_time : ℚ
  last_direction : Int
  target : v2
deriving DecidableEq, Repr

/-- The entity table of `struct State`: the array `entities[256]` and the count
`num_entities`.  (The scratch stack of `State` is never touched by the entity
operations and is not part of this record.) -/
structure State where
  entities : Nat → Entity
  num_entities : Nat

/-- The assignment `*dest = e` where `dest = &state->entities[dest]`. -/
def State.store (state : State) (dest : Nat) (e : Entity) : State :=
  { state with entities := fun j => if j = dest then e else state.entities j }

/-! ## `entity_push` -/

/-- The hook `entity_evict`: its only case prints a debug line. -/
def entity_evict (_e : Entity) : Unit := ()

/-- One round of the loop body at lines 284-285: `dest` moves to slot `i` when
slot `i` has strictly smaller priority. -/
def entity_push_step (state : State) (dest i : Nat) : Nat :=
  if (state.entities i).priority < (state.entities dest).priority then i else dest

/-- The scan at lines 282-285: `dest` starts at slot 0 and `i` runs over
`1 .. num_entities - 1`.  The result is the slot index `dest` points to. -/
def entity_push_scan (state : State) : Nat :=
  (List.range' 1 (state.num_entities - 1)).foldl (entity_push_step state) 0

/-- The function `entity_push`: the returned `int` and the state after the call. -/
def entity_push (state : State) (e : Entity) : Int × State :=
  if state.num_entities < 256 then
    let dest := state.num_entities
    let state := { state with num_entities := state.num_entities + 1 }
    (0, state.store dest e)
  else
    let dest := entity_push_scan state
    if (state.entities dest).priority ≥ e.priority then
      (1, state)
    else
      let _ := entity_evict (state.entities dest)
      (0, state.store dest e)

/-- The slot index that `entity_push` assigns through `dest` (line 292), or
`none` when it returns before the assignment (line 288). -/
def entity_push_dest (state : State) (e : Entity) : Option Nat :=
  if state.num_entities < 256 then
    some state.num_entities
  else
    let dest := entity_push_scan state
    if (state.entities dest).priority ≥ e.priority then none else some dest

/-- The state after a sequence of `entity_push` calls, return values dropped. -/
def entity_push_all (state : State) (es : List Entity) : State :=
  es.foldl (fun s e => (entity_push s e).2) state

/-- Slot `k` is the lowest-indexed slot among the first `n` that holds their
minimum priority. -/
def IsFirstMin (state : State) (n k : Nat) : Prop :=
  k < n ∧ (∀ j, j < n → (state.entities k).priority ≤ (state.entities j).priority) ∧
    (∀ j, j < k → (state.entities k).priority < (state.entities j).priority)

instance (state : State) (n k : Nat) : Decidable (IsFirstMin state n k) := by
  unfold IsFirstMin; infer_instance

/-- An entity with the given priority and every other field zero. -/
def entity_with_priority (p : Int) : Entity :=
  { type := ENTITY_TYPE_NULL, pos := ⟨0, 0, 0⟩, vel := ⟨0, 0, 0⟩, priority := p,
    hitbox := ⟨0, 0, 0, 0, 0, 0⟩, animation_time := 0, last_direction := DIR_UP,
    target := ⟨0, 0⟩ }

/-- A full table: slot 0 holds a `PRIORITY_PLAYER` entity, every other slot a
`PRIORITY_UNIMPORTANT` one. -/
def full_store : State :=
  { entities := fun j =>
      if j = 0 then entity_with_priority PRIORITY_PLAYER
      else entity_with_priority PRIORITY_UNIMPORTANT,
    num_entities := 256 }

/-- The table after `memset`: no entity yet. -/
def empty_store : State :=
  { entities := fun _ => entity_with_priority 0, num_entities := 0 }

/-! ## `collision_plane` and the six face tests of `handle_collision` -/

/-- The output parameters `*t_out, *nx_out, *ny_out, *nz_out`. -/
structure PlaneOut where
  t : ℚ
  nx : ℚ
  ny : ℚ
  nz : ℚ
deriving DecidableEq, Repr

/-- The function `collision_plane`: segment `(x0,y0,z0) -> (x1,y1,z1)`, face with
origin `(px0,py0,pz0)` and corners `(px1,py1,pz1)`, `(px2,py2,pz2)`; `out` holds
the output parameters on entry, the result holds them on return. -/
def collision_plane (x0 y0 z0 x1 y1 z1 px0 py0 pz0 px1 py1 pz1 px2 py2 pz2 : ℚ)
    (out : PlaneOut) : PlaneOut :=
  let dx := x1 - x0
  let dy := y1 - y0
  let dz := z1 - z0
  let px1 := px1 - px0
  let py1 := py1 - py0
  let pz1 := pz1 - pz0
  let px2 := px2 - px0
  let py2 := py2 - py0
  let pz2 := pz2 - pz0
  let nx := py1*pz2 - pz1*py1
  let ny := pz1*px2 - px1*pz1
  let nz := px1*py2 - py1*px1
  let d := dx*nx + dy*ny + dz*nz
  if abs d < 1/10000 then out
  else
    let x0 := x0 - px0
    let y0 := y0 - py0
    let z0 := z0 - pz0
    let t := (x0*nx + y0*ny + z0*nz) / d
    if t < 0 ∨ t > 1 then out
    else
      let x0 := x0 + t*dx
      let y0 := y0 + t*dy
      let z0 := z0 + t*dz
      let u := x0*px1 + y0*py1 + z0*pz1
      let v := x0*px2 + y0*py2 + z0*pz2
      if u < 0 ∨ u > 1 ∨ v < 0 ∨ v > 1 then out
      else if t < out.t then ⟨t, nx, ny, nz⟩
      else out

/-- The six `collision_plane` calls of `handle_collision` (lines 198-205) on the
box `(wx0,wy0,wz0)-(wx1,wy1,wz1)`: `t_tmp` starts at the sentinel 2, and
`nx_tmp, ny_tmp, nz_tmp` (uninitialised in the source) start at the given
values.  The result holds `t_tmp, nx_tmp, ny_tmp, nz_tmp` after the calls. -/
def box_test (x0 y0 z0 x1 y1 z1 wx0 wy0 wz0 wx1 wy1 wz1 nx_tmp ny_tmp nz_tmp : ℚ) :
    PlaneOut :=
  let out : PlaneOut := ⟨2, nx_tmp, ny_tmp, nz_tmp⟩
  let out := collision_plane x0 y0 z0 x1 y1 z1 wx0 wy0 wz0 wx0 wy1 wz0 wx0 wy0 wz1 out
  let out := collision_plane x0 y0 z0 x1 y1 z1 wx1 wy0 wz0 wx1 wy1 wz0 wx1 wy0 wz1 out
  let out := collision_plane x0 y0 z0 x1 y1 z1 wx0 wy0 wz0 wx1 wy0 wz0 wx0 wy0 wz1 out
  let out := collision_plane x0 y0 z0 x1 y1 z1 wx0 wy1 wz0 wx1 wy1 wz0 wx0 wy1 wz1 out
  let out := collision_plane x0 y0 z0 x1 y1 z1 wx0 wy0 wz0 wx1 wy0 wz0 wx0 wy1 wz0 out
  let out := collision_plane x0 y0 z0 x1 y1 z1 wx0 wy0 wz1 wx1 wy0 wz1 wx0 wy1 wz1 out
  out

/-- The nine face arguments of one `collision_plane` call. -/
structure Face where
  px0 : ℚ
  py0 : ℚ
  pz0 : ℚ
  px1 : ℚ
  py1 : ℚ
  pz1 : ℚ
  px2 : ℚ
  py2 : ℚ
  pz2 : ℚ
deriving DecidableEq, Repr

/-- The faces passed by the six calls of `handle_collision`, in call order:
the `x0`, `x1`, `y0`, `y1`, `z0` and `z1` faces of the box. -/
def box_faces (wx0 wy0 wz0 wx1 wy1 wz1 : ℚ) : List Face :=
  [ ⟨wx0, wy0, wz0, wx0, wy1, wz0, wx0, wy0, wz1⟩,
    ⟨wx1, wy0, wz0, wx1, wy1, wz0, wx1, wy0, wz1⟩,
    ⟨wx0, wy0, wz0, wx1, wy0, wz0, wx0, wy0, wz1⟩,
    ⟨wx0, wy1, wz0, wx1, wy1, wz0, wx0, wy1, wz1⟩,
    ⟨wx0, wy0, wz0, wx1, wy0, wz0, wx0, wy1, wz0⟩,
    ⟨wx0, wy0, wz1, wx1, wy0, wz1, wx0, wy1, wz1⟩ ]

/-- The normal `(nx, ny, nz)` that `collision_plane` computes for a face
(lines 89-98). -/
def plane_normal (f : Face) : ℚ × ℚ × ℚ :=
  let px1 := f.px1 - f.px0
  let py1 := f.py1 - f.py0
  let pz1 := f.pz1 - f.pz0
  let px2 := f.px2 - f.px0
  let py2 := f.py2 - f.py0
  let pz2 := f.pz2 - f.pz0
  (py1*pz2 - pz1*py1, pz1*px2 - px1*pz1, px1*py2 - py1*px1)

/-- The value `d` of `collision_plane` (line 100). -/
def plane_d (x0 y0 z0 x1 y1 z1 : ℚ) (f : Face) : ℚ :=
  (x1 - x0) * (plane_normal f).1 + (y1 - y0) * (plane_normal f).2.1
    + (z1 - z0) * (plane_normal f).2.2

/-- The value `t` of `collision_plane` (line 108). -/
def plane_t (x0 y0 z0 x1 y1 z1 : ℚ) (f : Face) : ℚ :=
  ((x0 - f.px0) * (plane_normal f).1 + (y0 - f.py0) * (plane_normal f).2.1
    + (z0 - f.pz0) * (plane_normal f).2.2) / plane_d x0 y0 z0 x1 y1 z1 f

/-- The value `u` of `collision_plane` (line 116). -/
def plane_u (x0 y0 z0 x1 y1 z1 : ℚ) (f : Face) : ℚ :=
  let t := plane_t x0 y0 z0 x1 y1 z1 f
  (x0 - f.px0 + t*(x1 - x0)) * (f.px1 - f.px0) + (y0 - f.py0 + t*(y1 - y0)) * (f.py1 - f.py0)
    + (z0 - f.pz0 + t*(z1 - z0)) * (f.pz1 - f.pz0)

/-- The value `v` of `collision_plane` (line 117). -/
def plane_v (x0 y0 z0 x1 y1 z1 : ℚ) (f : Face) : ℚ :=
  let t := plane_t x0 y0 z0 x1 y1 z1 f
  (x0 - f.px0 + t*(x1 - x0)) * (f.px2 - f.px0) + (y0 - f.py0 + t*(y1 - y0)) * (f.py2 - f.py0)
    + (z0 - f.pz0 + t*(z1 - z0)) * (f.pz2 - f.pz0)

/-- The face passes the three acceptance checks of `collision_plane`: the
parallel test (line 101), the range test on `t` (line 109) and the range test
on `u, v` (line 118) all let the call through. -/
def plane_accepts (x0 y0 z0 x1 y1 z1 : ℚ) (f : Face) : Prop :=
  ¬ (abs (plane_d x0 y0 z0 x1 y1 z1 f) < 1/10000) ∧
  ¬ (plane_t x0 y0 z0 x1 y1 z1 f < 0 ∨ plane_t x0 y0 z0 x1 y1 z1 f > 1) ∧
  ¬ (plane_u x0 y0 z0 x1 y1 z1 f < 0 ∨ plane_u x0 y0 z0 x1 y1 z1 f > 1 ∨
      plane_v x0 y0 z0 x1 y1 z1 f < 0 ∨ plane_v x0 y0 z0 x1 y1 z1 f > 1)

instance (x0 y0 z0 x1 y1 z1 : ℚ) (f : Face) : Decidable (plane_accepts x0 y0 z0 x1 y1 z1 f) := by
  unfold plane_accepts; infer_instance

/-- One `collision_plane` call on a face record. -/
def collision_plane_face (x0 y0 z0 x1 y1 z1 : ℚ) (out : PlaneOut) (f : Face) : PlaneOut :=
  collision_plane x0 y0 z0 x1 y1 z1 f.px0 f.py0 f.pz0 f.px1 f.py1 f.pz1 f.px2 f.py2 f.pz2 out

/-- The outputs `collision_plane` writes when it lowers `*t_out` on a face. -/
def plane_hit (x0 y0 z0 x1 y1 z1 : ℚ) (f : Face) : PlaneOut :=
  ⟨plane_t x0 y0 z0 x1 y1 z1 f, (plane_normal f).1, (plane_normal f).2.1, (plane_normal f).2.2⟩

/-- The point `(x, y, z)` lies on the face: it is `P0 + a*(P1-P0) + b*(P2-P0)`
for some `a, b` in `[0,1]`. -/
def OnFace (x y z : ℚ) (f : Face) : Prop :=
  ∃ a b : ℚ, 0 ≤ a ∧ a ≤ 1 ∧ 0 ≤ b ∧ b ≤ 1 ∧
    x = f.px0 + a*(f.px1 - f.px0) + b*(f.px2 - f.px0) ∧
    y = f.py0 + a*(f.py1 - f.py0) + b*(f.py2 - f.py0) ∧
    z = f.pz0 + a*(f.pz1 - f.pz0) + b*(f.pz2 - f.pz0)

/-- The point `(x, y, z)` lies inside or on the box `(wx0,wy0,wz0)-(wx1,wy1,wz1)`. -/
def InBox (x y z wx0 wy0 wz0 wx1 wy1 wz1 : ℚ) : Prop :=
  wx0 ≤ x ∧ x ≤ wx1 ∧ wy0 ≤ y ∧ y ≤ wy1 ∧ wz0 ≤ z ∧ z ≤ wz1

/-! ## `handle_collision` -/

/-- The half extent `w` of the moving entity (line 164). -/
def hitbox_w (e : Entity) : ℚ := (e.hitbox.x1 - e.hitbox.x0) / 2

/-- The half extent `h` of the moving entity (line 165). -/
def hitbox_h (e : Entity) : ℚ := (e.hitbox.y1 - e.hitbox.y0) / 2

/-- The half extent `d` of the moving entity (line 166). -/
def hitbox_d (e : Entity) : ℚ := (e.hitbox.z1 - e.hitbox.z0) / 2

/-- The start point `(x0, y0, z0)` of the sweep (lines 174-176). -/
def sweep_start (e : Entity) (w h d : ℚ) : v3 :=
  ⟨e.hitbox.x0 + e.pos.x + w, e.hitbox.y0 + e.pos.y + h, e.hitbox.z0 + e.pos.z + d⟩

/-- The end point `(x1, y1, z1)` of the sweep (lines 177-179). -/
def sweep_end (e : Entity) (w h d dt : ℚ) : v3 :=
  ⟨(sweep_start e w h d).x + e.vel.x * dt, (sweep_start e w h d).y + e.vel.y * dt,
    (sweep_start e w h d).z + e.vel.z * dt⟩

/-- The box `(wx0,wy0,wz0)-(wx1,wy1,wz1)` computed under the comment
`expand hitbox` (lines 190-195).  The source has `w, h, d` in scope and uses
`w` on x and `h` on both y and z. -/
def expand_hitbox (target : Entity) (w h _d : ℚ) : Cube :=
  { x0 := target.hitbox.x0 - w + target.pos.x,
    x1 := target.hitbox.x1 + w + target.pos.x,
    y0 := target.hitbox.y0 - h + target.pos.y,
    y1 := target.hitbox.y1 + h + target.pos.y,
    z0 := target.hitbox.z0 - h + target.pos.z,
    z1 := target.hitbox.z1 + h + target.pos.z }

/-- The target's world box (hitbox + position) enlarged on both sides by `w` on
the x axis, `h` on the y axis and `d` on the z axis: the expansion as the
specification words it. -/
def minkowski_box (target : Entity) (w h d : ℚ) : Cube :=
  { x0 := target.hitbox.x0 + target.pos.x - w,
    x1 := target.hitbox.x1 + target.pos.x + w,
    y0 := target.hitbox.y0 + target.pos.y - h,
    y1 := target.hitbox.y1 + target.pos.y + h,
    z0 := target.hitbox.z0 + target.pos.z - d,
    z1 := target.hitbox.z1 + target.pos.z + d }

/-- The values `t_tmp, nx_tmp, ny_tmp, nz_tmp` after the six face tests against
one target (lines 189-205); the uninitialised `nx_tmp, ny_tmp, nz_tmp` start
at 0. -/
def target_test (p0 p1 : v3) (target : Entity) (w h d : ℚ) : PlaneOut :=
  let b := expand_hitbox target w h d
  box_test p0.x p0.y p0.z p1.x p1.y p1.z b.x0 b.y0 b.z0 b.x1 b.y1 b.z1 0 0 0

/-- The locals `hit, t, nx, ny, nz` of one iteration: `hit` is the slot of the
entity pointed to, `none` for the null pointer. -/
structure Nearest where
  hit : Option Nat
  t : ℚ
  nx : ℚ
  ny : ℚ
  nz : ℚ
deriving DecidableEq, Repr

/-- The body of the loop over targets (lines 182-216) for slot `j`; `ei` is the
slot of `e`, so `target == e` is `j = ei`. -/
def handle_collision_step (s : State) (ei : Nat) (p0 p1 : v3) (w h d : ℚ)
    (near : Nearest) (j : Nat) : Nearest :=
  if j = ei then near
  else
    let r := target_test p0 p1 (s.entities j) w h d
    if r.t = 2 then near
    else if r.t < near.t then ⟨some j, r.t, r.nx, r.ny, r.nz⟩
    else near

/-- The loop over targets (lines 172-217): `hit = 0`, `t = 2`, then slots
`0 .. num_entities - 1` in order; the uninitialised `nx, ny, nz` start at 0. -/
def handle_collision_scan (s : State) (ei : Nat) (p0 p1 : v3) (w h d : ℚ) : Nearest :=
  (List.range s.num_entities).foldl (handle_collision_step s ei p0 p1 w h d) ⟨none, 2, 0, 0, 0⟩

/-- One iteration of the outer loop (lines 169-261) for the entity in slot `ei`.
`none` is the `break` at line 220; `some s1` is the state with which the next
iteration starts.  `normalize` is the two-float `normalize` of `flat_math.h`,
taken as a parameter. -/
def handle_collision_iter (normalize : ℚ → ℚ → ℚ × ℚ) (s : State) (ei : Nat)
    (w h d dt : ℚ) : Option State :=
  let e := s.entities ei
  let p0 := sweep_start e w h d
  let p1 := sweep_end e w h d dt
  let near := handle_collision_scan s ei p0 p1 w h d
  match near.hit with
  | none => none
  | some k =>
    let nx := (normalize near.nx near.ny).1
    let ny := (normalize near.nx near.ny).2
    let nz := near.nz
    if (s.entities k).type = ENTITY_TYPE_WALL then
      let vx := p1.x - p0.x
      let vy := p1.y - p0.y
      let vz := p1.z - p0.z
      let dot := vx*nx + vy*ny + vz*nz
      let ax := nx * dot * near.t
      let ay := ny * dot * near.t
      let az := nz * dot * near.t
      let ax := ax + nx * (1/10000)
      let ay := ay + ny * (1/10000)
      let az := az + nz * (1/10000)
      let pos : v3 := ⟨p0.x + ax, p0.y + ay, p0.z + az⟩
      let bx := vx - dot * nx
      let by_ := vy - dot * ny
      let bz := vz - dot * nz
      let vel : v3 := ⟨bx/dt, by_/dt, bz/dt⟩
      some (s.store ei { e with pos := pos, vel := vel })
    else
      some s

/-- The outer loop `for (i = 0; i < 4; ++i)` run for `n` more iterations. -/
def handle_collision_loop (normalize : ℚ → ℚ → ℚ × ℚ) (ei : Nat) (w h d dt : ℚ) :
    Nat → State → State
  | 0, s => s
  | n + 1, s =>
    match handle_collision_iter normalize s ei w h d dt with
    | none => s
    | some s1 => handle_collision_loop normalize ei w h d dt n s1

/-- The function `handle_collision(s, e, dt)` where `e = s->entities + ei`: the
state after the call. -/
def handle_collision (normalize : ℚ → ℚ → ℚ × ℚ) (s : State) (ei : Nat) (dt : ℚ) : State :=
  let w := hitbox_w (s.entities ei)
  let h := hitbox_h (s.entities ei)
  let d := hitbox_d (s.entities ei)
  let s := handle_collision_loop normalize ei w h d dt 4 s
  let e := s.entities ei
  s.store ei
    { e with pos := ⟨e.pos.x + e.vel.x * dt, e.pos.y + e.vel.y * dt, e.pos.z + e.vel.z * dt⟩ }

/-- The call `handle_collision(s, e, dt)` as a computation that may abort:
`none` stands for a call that ends in `abort()`.  No path of `handle_collision`
reaches `die`, `assert` or `exit`, so every call returns. -/
def handle_collision_call (normalize : ℚ → ℚ → ℚ × ℚ) (s : State) (ei : Nat) (dt : ℚ) :
    Option State :=
  some (handle_collision normalize s ei dt)

/-- The frame time `dt` that `main_loop` computes from the timestamps `ms` and
`last_ms` and passes to `handle_collision` (lines 588-589). -/
def main_loop_dt (ms last_ms : Int) : ℚ :=
  let dt : ℚ := ((ms - last_ms : Int) : ℚ) / 1000
  if dt > 1/20 then 1/20 else dt

/-- The macro `ENUM_CHECK(name, value)`, given `name##_NULL` and `name##_COUNT`:
`none` when it calls `die` (which ends in `abort()`), `some ()` otherwise. -/
def ENUM_CHECK (name_NULL name_COUNT value : Int) : Option Unit :=
  if value ≤ name_NULL ∨ value ≥ name_COUNT then none else some ()

/-- The check `ENUM_CHECK(ENTITY_TYPE, e->type)` that opens the per-frame update
of an entity in `main_loop` (line 599). -/
def main_loop_enum_check (e : Entity) : Option Unit :=
  ENUM_CHECK ENTITY_TYPE_NULL ENTITY_TYPE_COUNT e.type

/-- Modelled from the spec: the two-float `normalize` of `flat_math.h`, which is
not among the sources; the specification describes it as a 2D normalisation over
x and y.  Both components are divided by the length `sqrt (x*x + y*y)`; the
square root is `Rat.sqrt`, which is exact whenever `x*x + y*y` is the square of
a rational. -/
def normalize_xy (x y : ℚ) : ℚ × ℚ :=
  let len := Rat.sqrt (x*x + y*y)
  (x / len, y / len)

/-- The cross product of two vectors, as the specification words the face
normal. -/
def cross_product (a b : ℚ × ℚ × ℚ) : ℚ × ℚ × ℚ :=
  (a.2.1 * b.2.2 - a.2.2 * b.2.1, a.2.2 * b.1 - a.1 * b.2.2, a.1 * b.2.1 - a.2.1 * b.1)

/-- The dot product of two `v3`. -/
def v3_dot (a b : v3) : ℚ := a.x * b.x + a.y * b.y + a.z * b.z

/-- An entity of the given type, position, velocity and hitbox; the other
fields are zero. -/
def entity_at (type : Int) (pos vel : v3) (hitbox : Cube) : Entity :=
  { type := type, pos := pos, vel := vel, priority := PRIORITY_MAP, hitbox := hitbox,
    animation_time := 0, last_direction := DIR_UP, target := ⟨0, 0⟩ }

/-- The end-to-end scenario of the specification: slot 0 holds entity A (hitbox
`[-0.5,0.5]^3` at the origin, velocity `vel`), slot 1 holds the Wall B (hitbox
`[-0.1,-4,-2]-[0.1,4,2]` at `(4,0,0)`). -/
def scenario_store (vel : v3) : State :=
  { entities := fun j =>
      if j = 0 then
        entity_at ENTITY_TYPE_PLAYER ⟨0, 0, 0⟩ vel ⟨-1/2, -1/2, -1/2, 1/2, 1/2, 1/2⟩
      else
        entity_at ENTITY_TYPE_WALL ⟨4, 0, 0⟩ ⟨0, 0, 0⟩ ⟨-1/10, -4, -2, 1/10, 4, 2⟩,
    num_entities := 2 }

/-- A table in which the tester reports a hit on a Wall: slot 0 holds a moving
point (empty hitbox) at `(2,1/2,1/2)` with velocity `(2,1/5,0)`, slot 1 a Wall
with hitbox `(0,0,0)-(1,1,1)` at the origin. -/
def glide_store : State :=
  { entities := fun j =>
      if j = 0 then
        entity_at ENTITY_TYPE_PLAYER ⟨2, 1/2, 1/2⟩ ⟨2, 1/5, 0⟩ ⟨0, 0, 0, 0, 0, 0⟩
      else
        entity_at ENTITY_TYPE_WALL ⟨0, 0, 0⟩ ⟨0, 0, 0⟩ ⟨0, 0, 0, 1, 1, 1⟩,
    num_entities := 2 }

/-- In the first iteration of `handle_collision(s, e, dt)` no entity other than
`e` yields a hit: the six face tests against the box of every other slot below
`num_entities` leave `t_tmp` at the sentinel 2. -/
def first_iteration_no_hit (s : State) (ei : Nat) (dt : ℚ) : Prop :=
  ∀ j, j < s.num_entities → j ≠ ei →
    (target_test
      (sweep_start (s.entities ei) (hitbox_w (s.entities ei)) (hitbox_h (s.entities ei))
        (hitbox_d (s.entities ei)))
      (sweep_end (s.entities ei) (hitbox_w (s.entities ei)) (hitbox_h (s.entities ei))
        (hitbox_d (s.entities ei)) dt)
      (s.entities j) (hitbox_w (s.entities ei)) (hitbox_h (s.entities ei))
      (hitbox_d (s.entities ei))).t = 2

instance (s : State) (ei : Nat) (dt : ℚ) : Decidable (first_iteration_no_hit s ei dt) := by
  unfold first_iteration_no_hit; infer_instance

/-- The movement vector `(vx, vy, vz) = p1 - p0` of an iteration (lines 233-235). -/
def sweep_delta (e : Entity) (w h d dt : ℚ) : v3 :=
  ⟨(sweep_end e w h d dt).x - (sweep_start e w h d).x,
    (sweep_end e w h d dt).y - (sweep_start e w h d).y,
    (sweep_end e w h d dt).z - (sweep_start e w h d).z⟩

/-- The hit normal `(nx, ny, nz)` after `normalize(&nx, &ny)` (line 222). -/
def hit_normal (normalize : ℚ → ℚ → ℚ × ℚ) (near : Nearest) : v3 :=
  ⟨(normalize near.nx near.ny).1, (normalize near.nx near.ny).2, near.nz⟩

/-- The locals `hit, t, nx, ny, nz` after the loop over targets in an iteration
that starts from state `s` (lines 172-217). -/
def iteration_scan (s : State) (ei : Nat) (w h d dt : ℚ) : Nearest :=
  handle_collision_scan s ei (sweep_start (s.entities ei) w h d)
    (sweep_end (s.entities ei) w h d dt) w h d

/-- The position assigned to `e->pos` in the Wall branch (lines 236-248), from
the sweep start `p0`, the movement vector `v`, the normal `n` and `t`. -/
def glide_position (p0 v n : v3) (t : ℚ) : v3 :=
  ⟨p0.x + (n.x * v3_dot v n * t + n.x * (1/10000)),
    p0.y + (n.y * v3_dot v n * t + n.y * (1/10000)),
    p0.z + (n.z * v3_dot v n * t + n.z * (1/10000))⟩

/-- The velocity assigned to `e->vel` in the Wall branch (lines 251-254), from
the movement vector `v`, the normal `n` and `dt`. -/
def glide_velocity (v n : v3) (dt : ℚ) : v3 :=
  ⟨(v.x - v3_dot v n * n.x) / dt, (v.y - v3_dot v n * n.y) / dt, (v.z - v3_dot v n * n.z) / dt⟩

/-- The table `glide_store` with the obstacle in slot 1 turned into a Monster:
the tester reports the same hit, on an entity that is not a Wall. -/
def monster_store : State :=
  { entities := fun j =>
      if j = 0 then
        entity_at ENTITY_TYPE_PLAYER ⟨2, 1/2, 1/2⟩ ⟨2, 1/5, 0⟩ ⟨0, 0, 0, 0, 0, 0⟩
      else
        entity_at ENTITY_TYPE_MONSTER ⟨0, 0, 0⟩ ⟨0, 0, 0⟩ ⟨0, 0, 0, 1, 1, 1⟩,
    num_entities := 2 }

/-- State `s1` differs from state `s` at most in the `pos` and `vel` of the
entity in slot `ei`. -/
def only_pos_vel_changed (ei : Nat) (s s1 : State) : Prop :=
  s1.num_entities = s.num_entities ∧
  (∀ j, j ≠ ei → s1.entities j = s.entities j) ∧
  (s1.entities ei).type = (s.entities ei).type ∧
  (s1.entities ei).priority = (s.entities ei).priority ∧
  (s1.entities ei).hitbox = (s.entities ei).hitbox ∧
  (s1.entities ei).animation_time = (s.entities ei).animation_time ∧
  (s1.entities ei).last_direction = (s.entities ei).last_direction ∧
  (s1.entities ei).target = (s.entities ei).target

/-! ## `collision_line` and `physics_rect_collide` -/

/-- The output parameters `*t_out, *nx_out, *ny_out` of `collision_line`. -/
structure LineOut where
  t : ℚ
  nx : ℚ
  ny : ℚ
deriving DecidableEq, Repr

/-- The value of the float literal `0.0001f`: the binary32 value nearest to
`0.0001`, which is `13743895 * 2^-37`, a little below `1/10000`. -/
def float_0_0001 : ℚ := 13743895 / 137438953472

/-- The function `collision_line`: segment `(x0,y0) -> (x1,y1)` against the wall
segment `(wx0,wy0) -> (wx1,wy1)`; `out` holds the output parameters on entry,
the result holds them on return.  The operations are read as exact; the
threshold is the value of the literal `0.0001f`. -/
def collision_line (x0 y0 x1 y1 wx0 wy0 wx1 wy1 : ℚ) (out : LineOut) : LineOut :=
  let ux := x1 - x0
  let uy := y1 - y0
  let vx := wx1 - wx0
  let vy := wy1 - wy0
  let d := ux*vy - uy*vx
  let wx := wx0 - x0
  let wy := wy0 - y0
  if abs d < float_0_0001 then out
  else
    let s := (wx*uy - wy*ux) / d
    let t := (wx*vy - wy*vx) / d
    if t < 0 ∨ t > 1 ∨ s < 0 ∨ s > 1 then out
    else if t < out.t then ⟨t, -vy, vx⟩
    else out

/-- The points at parameter `t` of `(x0,y0) -> (x1,y1)` and at parameter `s` of
`(wx0,wy0) -> (wx1,wy1)` coincide, with `t` and `s` in `[0,1]`. -/
def segments_cross_at (x0 y0 x1 y1 wx0 wy0 wx1 wy1 t s : ℚ) : Prop :=
  0 ≤ t ∧ t ≤ 1 ∧ 0 ≤ s ∧ s ≤ 1 ∧
  x0 + t * (x1 - x0) = wx0 + s * (wx1 - wx0) ∧
  y0 + t * (y1 - y0) = wy0 + s * (wy1 - wy0)

/-- The value `d` of `collision_line` (line 135): the cross product of the two
segment directions. -/
def line_d (x0 y0 x1 y1 wx0 wy0 wx1 wy1 : ℚ) : ℚ :=
  (x1 - x0) * (wy1 - wy0) - (y1 - y0) * (wx1 - wx0)

/-- The value `s` of `collision_line` (line 143). -/
def line_s (x0 y0 x1 y1 wx0 wy0 wx1 wy1 : ℚ) : ℚ :=
  ((wx0 - x0) * (y1 - y0) - (wy0 - y0) * (x1 - x0)) / line_d x0 y0 x1 y1 wx0 wy0 wx1 wy1

/-- The value `t` of `collision_line` (line 144). -/
def line_t (x0 y0 x1 y1 wx0 wy0 wx1 wy1 : ℚ) : ℚ :=
  ((wx0 - x0) * (wy1 - wy0) - (wy0 - y0) * (wx1 - wx0)) / line_d x0 y0 x1 y1 wx0 wy0 wx1 wy1

/-- Four floats `x0, y0, x1, y1`, `Rect` of `flat_math.h`. -/
structure Rect where
  x0 : ℚ
  y0 : ℚ
  x1 : ℚ
  y1 : ℚ
deriving DecidableEq, Repr

/-- The function `physics_rect_collide`: the returned `int`. -/
def physics_rect_collide (a b : Rect) : Int :=
  if ¬ (a.x1 < b.x0 ∨ a.x0 > b.x1 ∨ a.y0 > b.y1 ∨ a.y1 < b.y1) then 1 else 0

/-- The rectangles overlap: their x ranges meet and their y ranges meet. -/
def rect_overlap (a b : Rect) : Prop :=
  a.x0 ≤ b.x1 ∧ b.x0 ≤ a.x1 ∧ a.y0 ≤ b.y1 ∧ b.y0 ≤ a.y1

/-! ## The table's priorities -/

/-- The value `m` is the minimum priority among the occupants of slots
`0 .. n-1`. -/
def IsMinPriority (s : State) (n : Nat) (m : Int) : Prop :=
  (∃ k, k < n ∧ (s.entities k).priority = m) ∧ ∀ j, j < n → m ≤ (s.entities j).priority

/-- The sum of the priorities of the occupants of slots `0 .. n-1`. -/
def priority_sum (s : State) (n : Nat) : Int :=
  ∑ j in Finset.range n, (s.entities j).priority

/-! ## The stack allocator of `flat_utils.c` -/

/-- The record `Stack`: the addresses `begin`, `end` and `curr`, as integers
(0 is the null pointer). -/
structure Stack where
  begin_ : Int
  end_ : Int
  curr : Int
deriving DecidableEq, Repr

/-- The error code `MEM_FULL`. -/
def MEM_FULL : Int := 1

/-- The macro `mem__align(x, val)`: `((long)(x) + ((val)-1)) & ~((val)-1)`, with
`&` and `~` the two's-complement operations. -/
def mem__align (x val : Int) : Int :=
  Int.land (x + (val - 1)) (Int.lnot (val - 1))

/-- The function `stack_push_ex`: the returned address, the stack after the call
and the global `mem_errno` after the call. -/
def stack_push_ex (stack : Stack) (mem_errno : Int) (size align : Int) : Int × Stack × Int :=
  let stack := { stack with curr := mem__align stack.curr align }
  if stack.curr + size > stack.end_ then
    (0, stack, MEM_FULL)
  else
    let stack := { stack with curr := stack.curr + size }
    (stack.curr - size, stack, mem_errno)

/-- The address `p` is `x` rounded up to the next multiple of `a`: the least
multiple of `a` that is not below `x`. -/
def IsRoundUp (x a p : Int) : Prop :=
  a ∣ p ∧ x ≤ p ∧ p < x + a

/-! ## The resolver in float32 arithmetic

The definitions above read every `float` operation as exact.  The definitions
below repeat `collision_plane` and one iteration of `handle_collision` with a
rounding function `fl` applied to the result of every arithmetic operation and
to every decimal literal, in the order in which the source evaluates them; with
`fl = id` they are the definitions above, with `fl = f32_round` they are the
computation on IEEE 754 binary32 values, each `float` operation rounded to
binary32 on its own (no wider intermediate precision, no fused multiply-add). -/

/-- Rounding of a rational to the nearest integer, ties to the even one. -/
def round_half_even (y : ℚ) : ℤ :=
  let f := ⌊y⌋
  if y - f < 1/2 then f
  else if 1/2 < y - f then f + 1
  else if f % 2 = 0 then f
  else f + 1

/-- The number of halvings that bring `n` below 2: the floor of the binary
logarithm of `n ≥ 1`, for `n` below `2^fuel`. -/
def nat_log2 : Nat → Nat → Nat
  | 0, _ => 0
  | fuel + 1, n => if n < 2 then 0 else nat_log2 fuel (n / 2) + 1

/-- The exponent `e` with `2^e ≤ a < 2^(e+1)`, for a positive rational `a`. -/
def f32_exponent (a : ℚ) : Int :=
  let e0 : Int := (nat_log2 512 a.num.natAbs : Int) - (nat_log2 512 a.den : Int)
  if a.num.natAbs * 2 ^ (-e0).toNat < a.den * 2 ^ e0.toNat then e0 - 1 else e0

/-- The power `2^e` as a rational. -/
def pow2 (e : Int) : ℚ :=
  if 0 ≤ e then ((2 ^ e.toNat : Nat) : ℚ) else 1 / ((2 ^ (-e).toNat : Nat) : ℚ)

/-- The spacing of binary32 values around `x`: `2^(e-23)` for
`2^e ≤ |x| < 2^(e+1)`, and `2^-149` in the subnormal range. -/
def f32_quantum (x : ℚ) : ℚ :=
  if x = 0 then pow2 (-149) else pow2 (max (f32_exponent (abs x) - 23) (-149))

/-- Rounding to the nearest binary32 value, ties to even (the default IEEE 754
mode).  Magnitudes from `2^128` on, which overflow to infinity, are outside this
model. -/
def f32_round (x : ℚ) : ℚ := round_half_even (x / f32_quantum x) * f32_quantum x

/-- The function `collision_plane` with every operation rounded by `fl`. -/
def collision_plane_fl (fl : ℚ → ℚ)
    (x0 y0 z0 x1 y1 z1 px0 py0 pz0 px1 py1 pz1 px2 py2 pz2 : ℚ) (out : PlaneOut) : PlaneOut :=
  let dx := fl (x1 - x0)
  let dy := fl (y1 - y0)
  let dz := fl (z1 - z0)
  let px1 := fl (px1 - px0)
  let py1 := fl (py1 - py0)
  let pz1 := fl (pz1 - pz0)
  let px2 := fl (px2 - px0)
  let py2 := fl (py2 - py0)
  let pz2 := fl (pz2 - pz0)
  let nx := fl (fl (py1*pz2) - fl (pz1*py1))
  let ny := fl (fl (pz1*px2) - fl (px1*pz1))
  let nz := fl (fl (px1*py2) - fl (py1*px1))
  let d := fl (fl (fl (dx*nx) + fl (dy*ny)) + fl (dz*nz))
  if abs d < fl (1/10000) then out
  else
    let x0 := fl (x0 - px0)
    let y0 := fl (y0 - py0)
    let z0 := fl (z0 - pz0)
    let t := fl (fl (fl (fl (x0*nx) + fl (y0*ny)) + fl (z0*nz)) / d)
    if t < 0 ∨ t > 1 then out
    else
      let x0 := fl (x0 + fl (t*dx))
      let y0 := fl (y0 + fl (t*dy))
      let z0 := fl (z0 + fl (t*dz))
      let u := fl (fl (fl (x0*px1) + fl (y0*py1)) + fl (z0*pz1))
      let v := fl (fl (fl (x0*px2) + fl (y0*py2)) + fl (z0*pz2))
      if u < 0 ∨ u > 1 ∨ v < 0 ∨ v > 1 then out
      else if t < out.t then ⟨t, nx, ny, nz⟩
      else out

/-- The six face tests of `handle_collision` (lines 198-205) over
`collision_plane_fl`. -/
def box_test_fl (fl : ℚ → ℚ)
    (x0 y0 z0 x1 y1 z1 wx0 wy0 wz0 wx1 wy1 wz1 nx_tmp ny_tmp nz_tmp : ℚ) : PlaneOut :=
  let out : PlaneOut := ⟨2, nx_tmp, ny_tmp, nz_tmp⟩
  let out := collision_plane_fl fl x0 y0 z0 x1 y1 z1 wx0 wy0 wz0 wx0 wy1 wz0 wx0 wy0 wz1 out
  let out := collision_plane_fl fl x0 y0 z0 x1 y1 z1 wx1 wy0 wz0 wx1 wy1 wz0 wx1 wy0 wz1 out
  let out := collision_plane_fl fl x0 y0 z0 x1 y1 z1 wx0 wy0 wz0 wx1 wy0 wz0 wx0 wy0 wz1 out
  let out := collision_plane_fl fl x0 y0 z0 x1 y1 z1 wx0 wy1 wz0 wx1 wy1 wz0 wx0 wy1 wz1 out
  let out := collision_plane_fl fl x0 y0 z0 x1 y1 z1 wx0 wy0 wz0 wx1 wy0 wz0 wx0 wy1 wz0 out
  let out := collision_plane_fl fl x0 y0 z0 x1 y1 z1 wx0 wy0 wz1 wx1 wy0 wz1 wx0 wy1 wz1 out
  out

/-- The half extents `w, h, d` (lines 164-166) with rounded operations. -/
def hitbox_w_fl (fl : ℚ → ℚ) (e : Entity) : ℚ := fl (fl (e.hitbox.x1 - e.hitbox.x0) / 2)

def hitbox_h_fl (fl : ℚ → ℚ) (e : Entity) : ℚ := fl (fl (e.hitbox.y1 - e.hitbox.y0) / 2)

def hitbox_d_fl (fl : ℚ → ℚ) (e : Entity) : ℚ := fl (fl (e.hitbox.z1 - e.hitbox.z0) / 2)

/-- The sweep start (lines 174-176) with rounded operations. -/
def sweep_start_fl (fl : ℚ → ℚ) (e : Entity) (w h d : ℚ) : v3 :=
  ⟨fl (fl (e.hitbox.x0 + e.pos.x) + w), fl (fl (e.hitbox.y0 + e.pos.y) + h),
    fl (fl (e.hitbox.z0 + e.pos.z) + d)⟩

/-- The sweep end (lines 177-179) with rounded operations. -/
def sweep_end_fl (fl : ℚ → ℚ) (e : Entity) (w h d dt : ℚ) : v3 :=
  ⟨fl ((sweep_start_fl fl e w h d).x + fl (e.vel.x * dt)),
    fl ((sweep_start_fl fl e w h d).y + fl (e.vel.y * dt)),
    fl ((sweep_start_fl fl e w h d).z + fl (e.vel.z * dt))⟩

/-- The expanded box (lines 190-195) with rounded operations. -/
def expand_hitbox_fl (fl : ℚ → ℚ) (target : Entity) (w h _d : ℚ) : Cube :=
  { x0 := fl (fl (target.hitbox.x0 - w) + target.pos.x),
    x1 := fl (fl (target.hitbox.x1 + w) + target.pos.x),
    y0 := fl (fl (target.hitbox.y0 - h) + target.pos.y),
    y1 := fl (fl (target.hitbox.y1 + h) + target.pos.y),
    z0 := fl (fl (target.hitbox.z0 - h) + target.pos.z),
    z1 := fl (fl (target.hitbox.z1 + h) + target.pos.z) }

/-- The six face tests against one target (lines 189-205) with rounded
operations. -/
def target_test_fl (fl : ℚ → ℚ) (p0 p1 : v3) (target : Entity) (w h d : ℚ) : PlaneOut :=
  let b := expand_hitbox_fl fl target w h d
  box_test_fl fl p0.x p0.y p0.z p1.x p1.y p1.z b.x0 b.y0 b.z0 b.x1 b.y1 b.z1 0 0 0

/-- The body of the loop over targets (lines 182-216) with rounded operations. -/
def handle_collision_step_fl (fl : ℚ → ℚ) (s : State) (ei : Nat) (p0 p1 : v3) (w h d : ℚ)
    (near : Nearest) (j : Nat) : Nearest :=
  if j = ei then near
  else
    let r := target_test_fl fl p0 p1 (s.entities j) w h d
    if r.t = 2 then near
    else if r.t < near.t then ⟨some j, r.t, r.nx, r.ny, r.nz⟩
    else near

/-- The loop over targets in an iteration that starts from state `s`
(lines 172-217) with rounded operations. -/
def iteration_scan_fl (fl : ℚ → ℚ) (s : State) (ei : Nat) (w h d dt : ℚ) : Nearest :=
  (List.range s.num_entities).foldl
    (handle_collision_step_fl fl s ei (sweep_start_fl fl (s.entities ei) w h d)
      (sweep_end_fl fl (s.entities ei) w h d dt) w h d)
    ⟨none, 2, 0, 0, 0⟩

/-- The movement vector `(vx, vy, vz)` (lines 233-235) with rounded operations. -/
def sweep_delta_fl (fl : ℚ → ℚ) (e : Entity) (w h d dt : ℚ) : v3 :=
  ⟨fl ((sweep_end_fl fl e w h d dt).x - (sweep_start_fl fl e w h d).x),
    fl ((sweep_end_fl fl e w h d dt).y - (sweep_start_fl fl e w h d).y),
    fl ((sweep_end_fl fl e w h d dt).z - (sweep_start_fl fl e w h d).z)⟩

/-- One iteration of the outer loop (lines 169-261) with rounded operations;
`none` is the `break` at line 220. -/
def handle_collision_iter_fl (fl : ℚ → ℚ) (normalize : ℚ → ℚ → ℚ × ℚ) (s : State) (ei : Nat)
    (w h d dt : ℚ) : Option State :=
  let e := s.entities ei
  let p0 := sweep_start_fl fl e w h d
  let near := iteration_scan_fl fl s ei w h d dt
  match near.hit with
  | none => none
  | some k =>
    let nx := (normalize near.nx near.ny).1
    let ny := (normalize near.nx near.ny).2
    let nz := near.nz
    if (s.entities k).type = ENTITY_TYPE_WALL then
      let vx := (sweep_delta_fl fl e w h d dt).x
      let vy := (sweep_delta_fl fl e w h d dt).y
      let vz := (sweep_delta_fl fl e w h d dt).z
      let dot := fl (fl (fl (vx*nx) + fl (vy*ny)) + fl (vz*nz))
      let ax := fl (fl (nx * dot) * near.t)
      let ay := fl (fl (ny * dot) * near.t)
      let az := fl (fl (nz * dot) * near.t)
      let ax := fl (ax + fl (nx * fl (1/10000)))
      let ay := fl (ay + fl (ny * fl (1/10000)))
      let az := fl (az + fl (nz * fl (1/10000)))
      let pos : v3 := ⟨fl (p0.x + ax), fl (p0.y + ay), fl (p0.z + az)⟩
      let bx := fl (vx - fl (dot * nx))
      let by_ := fl (vy - fl (dot * ny))
      let bz := fl (vz - fl (dot * nz))
      let vel : v3 := ⟨fl (bx/dt), fl (by_/dt), fl (bz/dt)⟩
      some (s.store ei { e with pos := pos, vel := vel })
    else
      some s

/-- The velocity assigned to `e->vel` in the Wall branch (lines 236, 251-254)
with rounded operations, from the movement vector `v`, the normal `n` and `dt`. -/
def glide_velocity_fl (fl : ℚ → ℚ) (v n : v3) (dt : ℚ) : v3 :=
  ⟨fl (fl (v.x - fl (fl (fl (fl (v.x*n.x) + fl (v.y*n.y)) + fl (v.z*n.z)) * n.x)) / dt),
    fl (fl (v.y - fl (fl (fl (fl (v.x*n.x) + fl (v.y*n.y)) + fl (v.z*n.z)) * n.y)) / dt),
    fl (fl (v.z - fl (fl (fl (fl (v.x*n.x) + fl (v.y*n.y)) + fl (v.z*n.z)) * n.z)) / dt)⟩

/-- A table of binary32 values on which the rounding of the sweep end shows:
slot 0 holds a moving point (empty hitbox) at `(1 + 2^-14, 2048.5, 0.5)` with
velocity `(2^-10, 3 * 2^-11, 0)`, slot 1 a Wall with hitbox `(0,0,0)-(1,1,1)` at
`(0, 2048, 0)`. -/
def rounding_store : State :=
  { entities := fun j =>
      if j = 0 then
        entity_at ENTITY_TYPE_PLAYER ⟨16385/16384, 4097/2, 1/2⟩ ⟨1/1024, 3/2048, 0⟩
          ⟨0, 0, 0, 0, 0, 0⟩
      else
        entity_at ENTITY_TYPE_WALL ⟨0, 2048, 0⟩ ⟨0, 0, 0⟩ ⟨0, 0, 0, 1, 1, 1⟩,
    num_entities := 2 }

/-! # Theorems -/

/-! ## Lemmas on the scan -/

theorem entity_push_scan_aux (state : State) (len : Nat) :
    ∀ a d : Nat, 0 < a → IsFirstMin state a d →
      IsFirstMin state (a + len)
        ((List.range' a len).foldl (entity_push_step state) d) := by
  induction len with
  | zero => intro a d _ h; simpa using h
  | succ len ih =>
    intro a d ha h
    rw [List.range'_succ, List.foldl_cons]
    have key : IsFirstMin state (a + 1) (entity_push_step state d a) := by
      obtain ⟨hd, hmin, hfirst⟩ := h
      unfold entity_push_step
      split_ifs with hlt
      · refine ⟨Nat.lt_succ_self a, ?_, ?_⟩
        · intro j hj
          rcases Nat.lt_succ_iff_lt_or_eq.mp hj with hj | hj
          · exact le_trans (le_of_lt hlt) (hmin j hj)
          · subst hj; exact le_refl _
        · intro j hj
          exact lt_of_lt_of_le hlt (hmin j hj)
      · refine ⟨Nat.lt_succ_of_lt hd, ?_, hfirst⟩
        intro j hj
        rcases Nat.lt_succ_iff_lt_or_eq.mp hj with hj | hj
        · exact hmin j hj
        · subst hj; exact not_lt.mp hlt
    have := ih (a + 1) _ (Nat.succ_pos a) key
    have e : a + 1 + len = a + (len + 1) := by omega
    rwa [e] at this

theorem entity_push_scan_isFirstMin (state : State) (h : 0 < state.num_entities) :
    IsFirstMin state state.num_entities (entity_push_scan state) := by
  have h0 : IsFirstMin state 1 0 :=
    ⟨Nat.one_pos, fun j hj => by
      have : j = 0 := by omega
      subst this; exact le_refl _, fun j hj => absurd hj (Nat.not_lt_zero j)⟩
  have := entity_push_scan_aux state (state.num_entities - 1) 1 0 Nat.one_pos h0
  have e : 1 + (state.num_entities - 1) = state.num_entities := by omega
  rw [e] at this
  exact this

theorem IsFirstMin.unique {state : State} {n k k' : Nat}
    (h : IsFirstMin state n k) (h' : IsFirstMin state n k') : k = k' := by
  obtain ⟨hk, hmin, hfirst⟩ := h
  obtain ⟨hk', hmin', hfirst'⟩ := h'
  rcases Nat.lt_trichotomy k k' with hlt | heq | hgt
  · exact absurd (hfirst' k hlt) (not_lt.mpr (hmin k' hk'))
  · exact heq
  · exact absurd (hfirst k' hgt) (not_lt.mpr (hmin' k hk))

/-! ## Lemmas on `collision_plane` -/

theorem collision_plane_face_eq (x0 y0 z0 x1 y1 z1 : ℚ) (out : PlaneOut) (f : Face) :
    collision_plane_face x0 y0 z0 x1 y1 z1 out f =
      if plane_accepts x0 y0 z0 x1 y1 z1 f ∧ plane_t x0 y0 z0 x1 y1 z1 f < out.t then
        plane_hit x0 y0 z0 x1 y1 z1 f
      else out := by
  simp only [collision_plane_face, collision_plane, plane_accepts, plane_hit, plane_t, plane_u,
    plane_v, plane_d, plane_normal]
  split_ifs <;> first | rfl | (exfalso; tauto)

theorem box_test_eq_foldl (x0 y0 z0 x1 y1 z1 wx0 wy0 wz0 wx1 wy1 wz1 nx_tmp ny_tmp nz_tmp : ℚ) :
    box_test x0 y0 z0 x1 y1 z1 wx0 wy0 wz0 wx1 wy1 wz1 nx_tmp ny_tmp nz_tmp =
      (box_faces wx0 wy0 wz0 wx1 wy1 wz1).foldl (collision_plane_face x0 y0 z0 x1 y1 z1)
        ⟨2, nx_tmp, ny_tmp, nz_tmp⟩ := rfl

/-! ## Lemmas on `entity_push` -/

theorem entity_push_full (state : State) (e : Entity) (k : Nat)
    (hn : state.num_entities = 256) (hk : IsFirstMin state 256 k) :
    entity_push state e =
      if (state.entities k).priority ≥ e.priority then (1, state) else (0, state.store k e) := by
  have hscan : entity_push_scan state = k := by
    have h := entity_push_scan_isFirstMin state (by omega)
    rw [hn] at h
    exact h.unique hk
  have hnot : ¬ state.num_entities < 256 := by omega
  simp only [entity_push, hnot, if_false, hscan]

theorem entity_push_append (state : State) (e : Entity) (h : state.num_entities < 256) :
    entity_push state e =
      (0, State.store { state with num_entities := state.num_entities + 1 }
        state.num_entities e) := by
  simp only [entity_push, h, if_true]

theorem entity_push_num_le (state : State) (e : Entity) (h : state.num_entities ≤ 256) :
    (entity_push state e).2.num_entities ≤ 256 := by
  by_cases h1 : state.num_entities < 256
  · rw [entity_push_append state e h1]
    simp only [State.store]; omega
  · by_cases h2 : (state.entities (entity_push_scan state)).priority ≥ e.priority
    · simp only [entity_push, h1, h2, if_true, if_false]; exact h
    · simp only [entity_push, h1, h2, if_false, State.store]; exact h

theorem entity_push_all_num_le (es : List Entity) :
    ∀ state : State, state.num_entities ≤ 256 →
      (entity_push_all state es).num_entities ≤ 256 := by
  induction es with
  | nil => intro state h; exact h
  | cons e es ih =>
    intro state h
    exact ih _ (entity_push_num_le state e h)

theorem entity_push_dest_lt (state : State) (e : Entity) (d : Nat)
    (h : state.num_entities ≤ 256) (hd : entity_push_dest state e = some d) : d < 256 := by
  by_cases h1 : state.num_entities < 256
  · simp only [entity_push_dest, h1, if_true, Option.some.injEq] at hd
    omega
  · by_cases h2 : (state.entities (entity_push_scan state)).priority ≥ e.priority
    · simp [entity_push_dest, h1, h2] at hd
    · simp only [entity_push_dest, h1, h2, if_false, Option.some.injEq] at hd
      have hn : state.num_entities = 256 := by omega
      have hmin := entity_push_scan_isFirstMin state (by omega)
      rw [hn] at hmin
      rw [← hd]
      exact hmin.1

theorem entity_push_store_dest (state : State) (e : Entity) (j : Nat)
    (h : (entity_push state e).2.entities j ≠ state.entities j) :
    entity_push_dest state e = some j := by
  by_cases h1 : state.num_entities < 256
  · simp only [entity_push, entity_push_dest, h1, if_true, State.store] at h ⊢
    by_cases hj : j = state.num_entities
    · rw [hj]
    · simp [hj] at h
  · by_cases h2 : (state.entities (entity_push_scan state)).priority ≥ e.priority
    · simp [entity_push, h1, h2] at h
    · simp only [entity_push, entity_push_dest, h1, h2, if_false, State.store] at h ⊢
      by_cases hj : j = entity_push_scan state
      · rw [hj]
      · simp [hj] at h

theorem full_store_firstMin : IsFirstMin full_store 256 1 := by
  refine ⟨by decide, ?_, ?_⟩
  · intro j _
    by_cases hj : j = 0 <;>
      simp [full_store, entity_with_priority, PRIORITY_PLAYER, PRIORITY_UNIMPORTANT, hj]
  · intro j hj
    have hj0 : j = 0 := by omega
    subst hj0
    simp [full_store, entity_with_priority, PRIORITY_PLAYER, PRIORITY_UNIMPORTANT]

/-! ## The entity store: insertion, eviction and rejection -/

/-- C1: on a full table (`num_entities = 256`), when `e.priority` is strictly
greater than the minimum priority among the occupants (held first by slot `k`),
`entity_push` returns 0, writes `e` to slot `k`, leaves every other slot as it
was and leaves `num_entities` at 256. -/
theorem entity_push_evicts_first_min (state : State) (e : Entity) (k : Nat)
    (hn : state.num_entities = 256) (hk : IsFirstMin state 256 k)
    (hp : (state.entities k).priority < e.priority) :
    (entity_push state e).1 = 0 ∧
    (entity_push state e).2.num_entities = 256 ∧
    (entity_push state e).2.entities k = e ∧
    ∀ j, j ≠ k → (entity_push state e).2.entities j = state.entities j := by
  have hnot : ¬ (state.entities k).priority ≥ e.priority := not_le.mpr hp
  rw [entity_push_full state e k hn hk, if_neg hnot]
  refine ⟨rfl, hn, ?_, ?_⟩
  · simp [State.store]
  · intro j hj
    simp [State.store, hj]

theorem entity_push_evicts_first_min_witness :
    full_store.num_entities = 256 ∧ IsFirstMin full_store 256 1 ∧
    (full_store.entities 1).priority < (entity_with_priority PRIORITY_MAP).priority ∧
    (entity_push full_store (entity_with_priority PRIORITY_MAP)).1 = 0 ∧
    (entity_push full_store (entity_with_priority PRIORITY_MAP)).2.num_entities = 256 ∧
    (entity_push full_store (entity_with_priority PRIORITY_MAP)).2.entities 1
      = entity_with_priority PRIORITY_MAP ∧
    ∀ j, j ≠ 1 → (entity_push full_store (entity_with_priority PRIORITY_MAP)).2.entities j
      = full_store.entities j :=
  ⟨rfl, full_store_firstMin, by decide,
    entity_push_evicts_first_min full_store (entity_with_priority PRIORITY_MAP) 1 rfl
      full_store_firstMin (by decide)⟩

/-- C2: on a full table (`num_entities = 256`), when the minimum priority `m`
among the occupants is greater than or equal to `e.priority`, `entity_push`
returns 1 and the state (every slot and `num_entities`) is exactly as before. -/
theorem entity_push_rejects_at_min (state : State) (e : Entity) (m : Int)
    (hn : state.num_entities = 256)
    (hm : ∃ k, k < 256 ∧ (state.entities k).priority = m)
    (hmin : ∀ j, j < 256 → m ≤ (state.entities j).priority)
    (hge : m ≥ e.priority) :
    entity_push state e = (1, state) := by
  have hscan := entity_push_scan_isFirstMin state (by omega)
  rw [hn] at hscan
  rw [entity_push_full state e _ hn hscan]
  have : (state.entities (entity_push_scan state)).priority ≥ e.priority :=
    le_trans hge (hmin _ hscan.1)
  rw [if_pos this]

theorem entity_push_rejects_at_min_witness :
    full_store.num_entities = 256 ∧
    (∃ k, k < 256 ∧ (full_store.entities k).priority = -1) ∧
    (∀ j, j < 256 → (-1 : Int) ≤ (full_store.entities j).priority) ∧
    (-1 : Int) ≥ (entity_with_priority PRIORITY_UNIMPORTANT).priority ∧
    entity_push full_store (entity_with_priority PRIORITY_UNIMPORTANT) = (1, full_store) :=
  have h1 : ∃ k, k < 256 ∧ (full_store.entities k).priority = -1 := ⟨1, by decide, by decide⟩
  have h2 : ∀ j, j < 256 → (-1 : Int) ≤ (full_store.entities j).priority :=
    fun j hj => full_store_firstMin.2.1 j hj
  ⟨rfl, h1, h2, by decide,
    entity_push_rejects_at_min full_store (entity_with_priority PRIORITY_UNIMPORTANT) (-1) rfl
      h1 h2 (by decide)⟩

/-- C3: on a table with `num_entities = n < 256`, for an entity `e` of any
priority, `entity_push` returns 0 and afterwards `num_entities = n + 1`, slot `n`
holds `e`, and slots `0 .. n-1` are unchanged. -/
theorem entity_push_appends (state : State) (e : Entity) (n : Nat)
    (hn : state.num_entities = n) (hlt : n < 256) :
    (entity_push state e).1 = 0 ∧
    (entity_push state e).2.num_entities = n + 1 ∧
    (entity_push state e).2.entities n = e ∧
    ∀ j, j < n → (entity_push state e).2.entities j = state.entities j := by
  subst hn
  rw [entity_push_append state e hlt]
  refine ⟨rfl, rfl, ?_, ?_⟩
  · simp [State.store]
  · intro j hj
    have : j ≠ state.num_entities := Nat.ne_of_lt hj
    simp [State.store, this]

theorem entity_push_appends_witness :
    empty_store.num_entities = 0 ∧ 0 < 256 ∧
    (entity_push empty_store (entity_with_priority PRIORITY_PLAYER)).1 = 0 ∧
    (entity_push empty_store (entity_with_priority PRIORITY_PLAYER)).2.num_entities = 0 + 1 ∧
    (entity_push empty_store (entity_with_priority PRIORITY_PLAYER)).2.entities 0
      = entity_with_priority PRIORITY_PLAYER ∧
    ∀ j, j < 0 → (entity_push empty_store (entity_with_priority PRIORITY_PLAYER)).2.entities j
      = empty_store.entities j :=
  ⟨rfl, by decide,
    entity_push_appends empty_store (entity_with_priority PRIORITY_PLAYER) 0 rfl (by decide)⟩

/-- C4: starting from a table with `num_entities = 0`, after every finite sequence
of `entity_push` calls `0 ≤ num_entities ≤ 256` holds, and every further
`entity_push` assigns only through a slot index below 256: the index it writes
is below 256 and no slot from 256 on changes. -/
theorem entity_push_capacity (state : State) (es : List Entity)
    (h0 : state.num_entities = 0) :
    0 ≤ (entity_push_all state es).num_entities ∧
    (entity_push_all state es).num_entities ≤ 256 ∧
    (∀ e d, entity_push_dest (entity_push_all state es) e = some d → d < 256) ∧
    (∀ e j, 256 ≤ j →
      (entity_push (entity_push_all state es) e).2.entities j
        = (entity_push_all state es).entities j) := by
  have hle : (entity_push_all state es).num_entities ≤ 256 :=
    entity_push_all_num_le es state (by omega)
  refine ⟨Nat.zero_le _, hle, ?_, ?_⟩
  · intro e d hd
    exact entity_push_dest_lt _ e d hle hd
  · intro e j hj
    by_contra hne
    have hd := entity_push_store_dest _ e j hne
    have := entity_push_dest_lt _ e j hle hd
    omega

theorem entity_push_capacity_witness :
    empty_store.num_entities = 0 ∧
    0 ≤ (entity_push_all empty_store
      [entity_with_priority PRIORITY_PLAYER, entity_with_priority PRIORITY_MAP]).num_entities ∧
    (entity_push_all empty_store
      [entity_with_priority PRIORITY_PLAYER, entity_with_priority PRIORITY_MAP]).num_entities
        ≤ 256 ∧
    (∀ e d, entity_push_dest (entity_push_all empty_store
      [entity_with_priority PRIORITY_PLAYER, entity_with_priority PRIORITY_MAP]) e = some d
        → d < 256) ∧
    (∀ e j, 256 ≤ j →
      (entity_push (entity_push_all empty_store
        [entity_with_priority PRIORITY_PLAYER, entity_with_priority PRIORITY_MAP]) e).2.entities j
        = (entity_push_all empty_store
        [entity_with_priority PRIORITY_PLAYER, entity_with_priority PRIORITY_MAP]).entities j) :=
  ⟨rfl, entity_push_capacity empty_store
    [entity_with_priority PRIORITY_PLAYER, entity_with_priority PRIORITY_MAP] rfl⟩

/-- C5 (as stated, refuted): the full table `full_store` has an occupant (slot 0,
priority 1) whose priority is at least that of the candidate (priority 0), yet
`entity_push` returns 0 and overwrites slot 1, which held a different entity. -/
theorem entity_push_not_rejected_by_one_occupant :
    full_store.num_entities = 256 ∧
    (∃ j, j < 256 ∧ (full_store.entities j).priority
      ≥ (entity_with_priority PRIORITY_MAP).priority) ∧
    (entity_push full_store (entity_with_priority PRIORITY_MAP)).1 = 0 ∧
    (entity_push full_store (entity_with_priority PRIORITY_MAP)).2.entities 1
      = entity_with_priority PRIORITY_MAP ∧
    full_store.entities 1 ≠ entity_with_priority PRIORITY_MAP := by
  have hfull := entity_push_full full_store (entity_with_priority PRIORITY_MAP) 1 rfl
    full_store_firstMin
  have hnot : ¬ (full_store.entities 1).priority
      ≥ (entity_with_priority PRIORITY_MAP).priority := by decide
  rw [if_neg hnot] at hfull
  refine ⟨rfl, ⟨0, by decide, by decide⟩, ?_, ?_, by decide⟩
  · rw [hfull]
  · rw [hfull]; simp [State.store]

/-- C5 (amended): on a full table (`num_entities = 256`), if every occupant has
priority greater than or equal to `e.priority`, `entity_push` returns 1 and
leaves the state unchanged. -/
theorem entity_push_rejects_when_no_occupant_lower (state : State) (e : Entity)
    (hn : state.num_entities = 256)
    (hall : ∀ j, j < 256 → e.priority ≤ (state.entities j).priority) :
    entity_push state e = (1, state) := by
  have hscan := entity_push_scan_isFirstMin state (by omega)
  rw [hn] at hscan
  rw [entity_push_full state e _ hn hscan, if_pos (hall _ hscan.1)]

theorem entity_push_rejects_when_no_occupant_lower_witness :
    full_store.num_entities = 256 ∧
    (∀ j, j < 256 →
      (entity_with_priority PRIORITY_UNIMPORTANT).priority ≤ (full_store.entities j).priority) ∧
    entity_push full_store (entity_with_priority PRIORITY_UNIMPORTANT) = (1, full_store) :=
  have h : ∀ j, j < 256 →
      (entity_with_priority PRIORITY_UNIMPORTANT).priority ≤ (full_store.entities j).priority :=
    fun j hj => full_store_firstMin.2.1 j hj
  ⟨rfl, h,
    entity_push_rejects_when_no_occupant_lower full_store
      (entity_with_priority PRIORITY_UNIMPORTANT) rfl h⟩

/-! ## The six face tests: running minimum over the accepted faces -/

theorem plane_accepts_t_range (x0 y0 z0 x1 y1 z1 : ℚ) (f : Face)
    (h : plane_accepts x0 y0 z0 x1 y1 z1 f) :
    0 ≤ plane_t x0 y0 z0 x1 y1 z1 f ∧ plane_t x0 y0 z0 x1 y1 z1 f ≤ 1 := by
  have h2 := h.2.1
  rw [not_or] at h2
  exact ⟨not_lt.mp h2.1, not_lt.mp h2.2⟩

theorem collision_plane_foldl (x0 y0 z0 x1 y1 z1 : ℚ) (fs : List Face) :
    ∀ init : PlaneOut,
      (fs.foldl (collision_plane_face x0 y0 z0 x1 y1 z1) init = init ∧
        ∀ g ∈ fs, plane_accepts x0 y0 z0 x1 y1 z1 g → init.t ≤ plane_t x0 y0 z0 x1 y1 z1 g) ∨
      (∃ pre f post, fs = pre ++ f :: post ∧ plane_accepts x0 y0 z0 x1 y1 z1 f ∧
        plane_t x0 y0 z0 x1 y1 z1 f < init.t ∧
        fs.foldl (collision_plane_face x0 y0 z0 x1 y1 z1) init = plane_hit x0 y0 z0 x1 y1 z1 f ∧
        (∀ g ∈ pre, plane_accepts x0 y0 z0 x1 y1 z1 g →
          plane_t x0 y0 z0 x1 y1 z1 f < plane_t x0 y0 z0 x1 y1 z1 g) ∧
        (∀ g ∈ post, plane_accepts x0 y0 z0 x1 y1 z1 g →
          plane_t x0 y0 z0 x1 y1 z1 f ≤ plane_t x0 y0 z0 x1 y1 z1 g)) := by
  induction fs with
  | nil =>
    intro init
    left
    exact ⟨rfl, fun g hg => absurd hg (List.not_mem_nil g)⟩
  | cons g rest ih =>
    intro init
    rw [List.foldl_cons, collision_plane_face_eq]
    by_cases hg : plane_accepts x0 y0 z0 x1 y1 z1 g ∧ plane_t x0 y0 z0 x1 y1 z1 g < init.t
    · rw [if_pos hg]
      right
      rcases ih (plane_hit x0 y0 z0 x1 y1 z1 g) with ⟨hr, hmin⟩ | ⟨pre, f, post, hsplit, hf, hlt, hr, hpre, hpost⟩
      · exact ⟨[], g, rest, rfl, hg.1, hg.2, hr, fun h hh => absurd hh (List.not_mem_nil h),
          fun h hh hacc => hmin h hh hacc⟩
      · have hlt' : plane_t x0 y0 z0 x1 y1 z1 f < plane_t x0 y0 z0 x1 y1 z1 g := hlt
        refine ⟨g :: pre, f, post, by rw [hsplit]; rfl, hf, lt_trans hlt' hg.2, hr, ?_, hpost⟩
        intro h hh hacc
        rcases List.mem_cons.mp hh with heq | hmem
        · rw [heq]; exact hlt'
        · exact hpre h hmem hacc
    · rw [if_neg hg]
      have hge : plane_accepts x0 y0 z0 x1 y1 z1 g → init.t ≤ plane_t x0 y0 z0 x1 y1 z1 g :=
        fun hacc => not_lt.mp (fun hlt => hg ⟨hacc, hlt⟩)
      rcases ih init with ⟨hr, hmin⟩ | ⟨pre, f, post, hsplit, hf, hlt, hr, hpre, hpost⟩
      · left
        refine ⟨hr, ?_⟩
        intro h hh hacc
        rcases List.mem_cons.mp hh with heq | hmem
        · rw [heq] at hacc ⊢; exact hge hacc
        · exact hmin h hmem hacc
      · right
        refine ⟨g :: pre, f, post, by rw [hsplit]; rfl, hf, hlt, hr, ?_, hpost⟩
        intro h hh hacc
        rcases List.mem_cons.mp hh with heq | hmem
        · rw [heq] at hacc ⊢; exact lt_of_lt_of_le hlt (hge hacc)
        · exact hpre h hmem hacc

/-- C7: for every segment and box, the six `collision_plane` calls of
`handle_collision`, started from the sentinel `t_tmp = 2`, end either with
`t_tmp = 2` and no face passing the three acceptance checks, or with a face `f`
that passes such that `t_tmp` is its `t`, `0 ≤ t_tmp ≤ 1`, the reported normal is
the one computed for `f`, no passing face has a smaller `t`, and every passing
face earlier in call order has a strictly larger `t`. -/
theorem box_test_first_smallest
    (x0 y0 z0 x1 y1 z1 wx0 wy0 wz0 wx1 wy1 wz1 nx_tmp ny_tmp nz_tmp : ℚ) :
    ((box_test x0 y0 z0 x1 y1 z1 wx0 wy0 wz0 wx1 wy1 wz1 nx_tmp ny_tmp nz_tmp).t = 2 ∧
      ∀ g ∈ box_faces wx0 wy0 wz0 wx1 wy1 wz1, ¬ plane_accepts x0 y0 z0 x1 y1 z1 g) ∨
    ((box_test x0 y0 z0 x1 y1 z1 wx0 wy0 wz0 wx1 wy1 wz1 nx_tmp ny_tmp nz_tmp).t ≠ 2 ∧
      ∃ pre f post, box_faces wx0 wy0 wz0 wx1 wy1 wz1 = pre ++ f :: post ∧
        plane_accepts x0 y0 z0 x1 y1 z1 f ∧
        box_test x0 y0 z0 x1 y1 z1 wx0 wy0 wz0 wx1 wy1 wz1 nx_tmp ny_tmp nz_tmp
          = ⟨plane_t x0 y0 z0 x1 y1 z1 f, (plane_normal f).1, (plane_normal f).2.1,
              (plane_normal f).2.2⟩ ∧
        0 ≤ (box_test x0 y0 z0 x1 y1 z1 wx0 wy0 wz0 wx1 wy1 wz1 nx_tmp ny_tmp nz_tmp).t ∧
        (box_test x0 y0 z0 x1 y1 z1 wx0 wy0 wz0 wx1 wy1 wz1 nx_tmp ny_tmp nz_tmp).t ≤ 1 ∧
        (∀ g ∈ box_faces wx0 wy0 wz0 wx1 wy1 wz1, plane_accepts x0 y0 z0 x1 y1 z1 g →
          plane_t x0 y0 z0 x1 y1 z1 f ≤ plane_t x0 y0 z0 x1 y1 z1 g) ∧
        (∀ g ∈ pre, plane_accepts x0 y0 z0 x1 y1 z1 g →
          plane_t x0 y0 z0 x1 y1 z1 f < plane_t x0 y0 z0 x1 y1 z1 g)) := by
  rw [box_test_eq_foldl]
  rcases collision_plane_foldl x0 y0 z0 x1 y1 z1 (box_faces wx0 wy0 wz0 wx1 wy1 wz1)
      ⟨2, nx_tmp, ny_tmp, nz_tmp⟩ with
    ⟨hr, hmin⟩ | ⟨pre, f, post, hsplit, hf, _, hr, hpre, hpost⟩
  · left
    rw [hr]
    refine ⟨rfl, ?_⟩
    intro g hg hacc
    have h1 := (plane_accepts_t_range x0 y0 z0 x1 y1 z1 g hacc).2
    have h2 : (2 : ℚ) ≤ plane_t x0 y0 z0 x1 y1 z1 g := hmin g hg hacc
    linarith
  · right
    have hrange := plane_accepts_t_range x0 y0 z0 x1 y1 z1 f hf
    rw [hr]
    refine ⟨?_, pre, f, post, hsplit, hf, rfl, hrange.1, hrange.2, ?_, hpre⟩
    · show plane_t x0 y0 z0 x1 y1 z1 f ≠ 2
      intro h2
      have := hrange.2
      rw [h2] at this
      norm_num at this
    · intro g hg hacc
      rw [hsplit] at hg
      rcases List.mem_append.mp hg with hmem | hmem
      · exact le_of_lt (hpre g hmem hacc)
      · rcases List.mem_cons.mp hmem with heq | hmem'
        · rw [heq]
        · exact hpost g hmem' hacc

/-! ## The face test evaluated on concrete segments -/

/-- C6 (failing input): on the unit face with origin `(0,0,0)` and corners
`(0,1,0)`, `(0,0,1)` (plane `x = 0`) and the segment `(1,1/2,1/2) -> (3,1/2,1/2)`,
`collision_plane` lowers `*t_out` from 2 to `1/2`, although the point at
`t = 1/2`, which is `(2,1/2,1/2)`, is not on the face, and no point of the
segment is. -/
theorem collision_plane_lowers_off_face :
    collision_plane 1 (1/2) (1/2) 3 (1/2) (1/2) 0 0 0 0 1 0 0 0 1 ⟨2, 0, 0, 0⟩
      = ⟨1/2, 1, 0, 0⟩ ∧
    ¬ OnFace (1 + (1/2) * (3 - 1)) (1/2 + (1/2) * (1/2 - 1/2)) (1/2 + (1/2) * (1/2 - 1/2))
        ⟨0, 0, 0, 0, 1, 0, 0, 0, 1⟩ ∧
    ¬ ∃ s : ℚ, 0 ≤ s ∧ s ≤ 1 ∧
        OnFace (1 + s * (3 - 1)) (1/2 + s * (1/2 - 1/2)) (1/2 + s * (1/2 - 1/2))
          ⟨0, 0, 0, 0, 1, 0, 0, 0, 1⟩ := by
  refine ⟨by norm_num [collision_plane], ?_, ?_⟩
  · rintro ⟨a, b, _, _, _, _, hx, _, _⟩
    norm_num at hx
  · rintro ⟨s, hs0, _, a, b, _, _, _, _, hx, _, _⟩
    norm_num at hx
    linarith

/-- C8 (failing input): for the box `(0,0,0)-(1,1,1)` and the segment
`(2,1/2,1/2) -> (4,1/2,1/2)`, none of whose points lies inside or on the box,
the six face tests end with `t_tmp = 1/2` and normal `(1,0,0)`: a hit is
reported. -/
theorem box_test_hit_outside_box :
    box_test 2 (1/2) (1/2) 4 (1/2) (1/2) 0 0 0 1 1 1 0 0 0 = ⟨1/2, 1, 0, 0⟩ ∧
    ¬ ∃ s : ℚ, 0 ≤ s ∧ s ≤ 1 ∧
        InBox (2 + s * (4 - 2)) (1/2 + s * (1/2 - 1/2)) (1/2 + s * (1/2 - 1/2)) 0 0 0 1 1 1 := by
  refine ⟨by norm_num [box_test, collision_plane], ?_⟩
  rintro ⟨s, hs0, _, _, hx, _⟩
  linarith

/-- C9 (failing input): for the box `(0,0,0)-(1,1,1)` and the segments through
its centre `(-1,1/2,1/2) -> (2,1/2,1/2)`, `(1/2,-1,1/2) -> (1/2,2,1/2)` and
`(1/2,1/2,-1) -> (1/2,1/2,2)`, each of which starts outside the box and crosses
it, the six face tests leave `t_tmp` at the sentinel 2: no hit is reported. -/
theorem box_test_misses_through_centre :
    box_test (-1) (1/2) (1/2) 2 (1/2) (1/2) 0 0 0 1 1 1 0 0 0 = ⟨2, 0, 0, 0⟩ ∧
    box_test (1/2) (-1) (1/2) (1/2) 2 (1/2) 0 0 0 1 1 1 0 0 0 = ⟨2, 0, 0, 0⟩ ∧
    box_test (1/2) (1/2) (-1) (1/2) (1/2) 2 0 0 0 1 1 1 0 0 0 = ⟨2, 0, 0, 0⟩ := by
  refine ⟨?_, ?_, ?_⟩ <;> norm_num [box_test, collision_plane]

/-- C10 (failing input, every box): the normals `collision_plane` computes for
the `x0, x1, y0, y1, z0, z1` faces of the box `(wx0,wy0,wz0)-(wx1,wy1,wz1)` are
`(Dy*Dz,0,0)` twice, `(0,0,0)` twice and `(0,0,Dx*Dy)` twice, where `Dx, Dy, Dz`
are the extents: the normals of the `y` faces are zero, and opposite `x` faces
(and opposite `z` faces) get the same normal, so one of each pair points into
the box. -/
theorem box_faces_normals (wx0 wy0 wz0 wx1 wy1 wz1 : ℚ) :
    (box_faces wx0 wy0 wz0 wx1 wy1 wz1).map plane_normal =
      [ ((wy1 - wy0) * (wz1 - wz0), 0, 0), ((wy1 - wy0) * (wz1 - wz0), 0, 0),
        (0, 0, 0), (0, 0, 0),
        (0, 0, (wx1 - wx0) * (wy1 - wy0)), (0, 0, (wx1 - wx0) * (wy1 - wy0)) ] := by
  simp [box_faces, plane_normal]

/-! ## Lemmas on the scan over targets of `handle_collision` -/

theorem box_test_t_cases (x0 y0 z0 x1 y1 z1 wx0 wy0 wz0 wx1 wy1 wz1 nx_tmp ny_tmp nz_tmp : ℚ) :
    (box_test x0 y0 z0 x1 y1 z1 wx0 wy0 wz0 wx1 wy1 wz1 nx_tmp ny_tmp nz_tmp).t = 2 ∨
    (box_test x0 y0 z0 x1 y1 z1 wx0 wy0 wz0 wx1 wy1 wz1 nx_tmp ny_tmp nz_tmp).t < 2 := by
  rw [box_test_eq_foldl]
  rcases collision_plane_foldl x0 y0 z0 x1 y1 z1 (box_faces wx0 wy0 wz0 wx1 wy1 wz1)
      ⟨2, nx_tmp, ny_tmp, nz_tmp⟩ with ⟨hr, _⟩ | ⟨_, f, _, _, _, hlt, hr, _, _⟩
  · left; rw [hr]
  · right; rw [hr]; exact hlt

theorem target_test_t_cases (p0 p1 : v3) (target : Entity) (w h d : ℚ) :
    (target_test p0 p1 target w h d).t = 2 ∨ (target_test p0 p1 target w h d).t < 2 :=
  box_test_t_cases _ _ _ _ _ _ _ _ _ _ _ _ _ _ _

theorem handle_collision_scan_aux (s : State) (ei : Nat) (p0 p1 : v3) (w h d : ℚ) (m : Nat) :
    ((List.range m).foldl (handle_collision_step s ei p0 p1 w h d) ⟨none, 2, 0, 0, 0⟩
        = ⟨none, 2, 0, 0, 0⟩ ∧
      ∀ j, j < m → j ≠ ei → (target_test p0 p1 (s.entities j) w h d).t = 2) ∨
    (∃ k, k < m ∧ k ≠ ei ∧ (target_test p0 p1 (s.entities k) w h d).t ≠ 2 ∧
      (List.range m).foldl (handle_collision_step s ei p0 p1 w h d) ⟨none, 2, 0, 0, 0⟩
        = ⟨some k, (target_test p0 p1 (s.entities k) w h d).t,
            (target_test p0 p1 (s.entities k) w h d).nx,
            (target_test p0 p1 (s.entities k) w h d).ny,
            (target_test p0 p1 (s.entities k) w h d).nz⟩ ∧
      (∀ j, j < m → j ≠ ei → (target_test p0 p1 (s.entities j) w h d).t ≠ 2 →
        (target_test p0 p1 (s.entities k) w h d).t ≤ (target_test p0 p1 (s.entities j) w h d).t) ∧
      (∀ j, j < k → j ≠ ei → (target_test p0 p1 (s.entities j) w h d).t ≠ 2 →
        (target_test p0 p1 (s.entities k) w h d).t < (target_test p0 p1 (s.entities j) w h d).t)) := by
  induction m with
  | zero =>
    left
    exact ⟨rfl, fun j hj => absurd hj (Nat.not_lt_zero j)⟩
  | succ m ih =>
    rw [List.range_succ, List.foldl_append, List.foldl_cons, List.foldl_nil]
    by_cases hme : m = ei
    · have hstep : ∀ near, handle_collision_step s ei p0 p1 w h d near m = near := by
        intro near; simp [handle_collision_step, hme]
      rw [hstep]
      rcases ih with ⟨hr, hall⟩ | ⟨k, hk, hke, hk2, hr, hmin, hfirst⟩
      · left
        refine ⟨hr, ?_⟩
        intro j hj hje
        rcases Nat.lt_succ_iff_lt_or_eq.mp hj with hj | hj
        · exact hall j hj hje
        · exact absurd (hj.trans hme) hje
      · right
        refine ⟨k, Nat.lt_succ_of_lt hk, hke, hk2, hr, ?_, hfirst⟩
        intro j hj hje hj2
        rcases Nat.lt_succ_iff_lt_or_eq.mp hj with hj | hj
        · exact hmin j hj hje hj2
        · exact absurd (hj.trans hme) hje
    · by_cases hm2 : (target_test p0 p1 (s.entities m) w h d).t = 2
      · have hstep : ∀ near, handle_collision_step s ei p0 p1 w h d near m = near := by
          intro near; simp [handle_collision_step, hme, hm2]
        rw [hstep]
        rcases ih with ⟨hr, hall⟩ | ⟨k, hk, hke, hk2, hr, hmin, hfirst⟩
        · left
          refine ⟨hr, ?_⟩
          intro j hj hje
          rcases Nat.lt_succ_iff_lt_or_eq.mp hj with hj | hj
          · exact hall j hj hje
          · rw [hj]; exact hm2
        · right
          refine ⟨k, Nat.lt_succ_of_lt hk, hke, hk2, hr, ?_, hfirst⟩
          intro j hj hje hj2
          rcases Nat.lt_succ_iff_lt_or_eq.mp hj with hj | hj
          · exact hmin j hj hje hj2
          · rw [hj] at hj2; exact absurd hm2 hj2
      · have hmlt : (target_test p0 p1 (s.entities m) w h d).t < 2 :=
          (target_test_t_cases p0 p1 (s.entities m) w h d).resolve_left hm2
        rcases ih with ⟨hr, hall⟩ | ⟨k, hk, hke, hk2, hr, hmin, hfirst⟩
        · right
          rw [hr]
          refine ⟨m, Nat.lt_succ_self m, hme, hm2, ?_, ?_, ?_⟩
          · simp [handle_collision_step, hme, hm2, hmlt]
          · intro j hj hje hj2
            rcases Nat.lt_succ_iff_lt_or_eq.mp hj with hj | hj
            · exact absurd (hall j hj hje) hj2
            · rw [hj]
          · intro j hj hje hj2
            exact absurd (hall j hj hje) hj2
        · rw [hr]
          by_cases hlt : (target_test p0 p1 (s.entities m) w h d).t
              < (target_test p0 p1 (s.entities k) w h d).t
          · right
            refine ⟨m, Nat.lt_succ_self m, hme, hm2, ?_, ?_, ?_⟩
            · simp [handle_collision_step, hme, hm2, hlt]
            · intro j hj hje hj2
              rcases Nat.lt_succ_iff_lt_or_eq.mp hj with hj | hj
              · exact le_trans (le_of_lt hlt) (hmin j hj hje hj2)
              · rw [hj]
            · intro j hj hje hj2
              exact lt_of_lt_of_le hlt (hmin j hj hje hj2)
          · right
            refine ⟨k, Nat.lt_succ_of_lt hk, hke, hk2, ?_, ?_, hfirst⟩
            · simp [handle_collision_step, hme, hm2, hlt]
            · intro j hj hje hj2
              rcases Nat.lt_succ_iff_lt_or_eq.mp hj with hj | hj
              · exact hmin j hj hje hj2
              · rw [hj]; exact not_lt.mp hlt

theorem handle_collision_scan_no_hit (s : State) (ei : Nat) (p0 p1 : v3) (w h d : ℚ)
    (hall : ∀ j, j < s.num_entities → j ≠ ei →
      (target_test p0 p1 (s.entities j) w h d).t = 2) :
    handle_collision_scan s ei p0 p1 w h d = ⟨none, 2, 0, 0, 0⟩ := by
  rcases handle_collision_scan_aux s ei p0 p1 w h d s.num_entities with
    ⟨hr, _⟩ | ⟨k, hk, hke, hk2, _, _, _⟩
  · exact hr
  · exact absurd (hall k hk hke) hk2

theorem handle_collision_iter_no_hit (normalize : ℚ → ℚ → ℚ × ℚ) (s : State) (ei : Nat)
    (w h d dt : ℚ)
    (hall : ∀ j, j < s.num_entities → j ≠ ei →
      (target_test (sweep_start (s.entities ei) w h d) (sweep_end (s.entities ei) w h d dt)
        (s.entities j) w h d).t = 2) :
    handle_collision_iter normalize s ei w h d dt = none := by
  have hscan := handle_collision_scan_no_hit s ei _ _ w h d hall
  simp only [handle_collision_iter, hscan]

theorem handle_collision_no_hit (normalize : ℚ → ℚ → ℚ × ℚ) (s : State) (ei : Nat) (dt : ℚ)
    (hall : ∀ j, j < s.num_entities → j ≠ ei →
      (target_test
        (sweep_start (s.entities ei) (hitbox_w (s.entities ei)) (hitbox_h (s.entities ei))
          (hitbox_d (s.entities ei)))
        (sweep_end (s.entities ei) (hitbox_w (s.entities ei)) (hitbox_h (s.entities ei))
          (hitbox_d (s.entities ei)) dt)
        (s.entities j) (hitbox_w (s.entities ei)) (hitbox_h (s.entities ei))
          (hitbox_d (s.entities ei))).t = 2) :
    handle_collision normalize s ei dt =
      s.store ei { s.entities ei with
        pos := ⟨(s.entities ei).pos.x + (s.entities ei).vel.x * dt,
                (s.entities ei).pos.y + (s.entities ei).vel.y * dt,
                (s.entities ei).pos.z + (s.entities ei).vel.z * dt⟩ } := by
  have hiter := handle_collision_iter_no_hit normalize s ei _ _ _ dt hall
  simp only [handle_collision, handle_collision_loop, hiter]

theorem collision_plane_zero_segment
    (x0 y0 z0 px0 py0 pz0 px1 py1 pz1 px2 py2 pz2 : ℚ) (out : PlaneOut) :
    collision_plane x0 y0 z0 x0 y0 z0 px0 py0 pz0 px1 py1 pz1 px2 py2 pz2 out = out := by
  simp [collision_plane]

theorem box_test_zero_segment (x0 y0 z0 wx0 wy0 wz0 wx1 wy1 wz1 nx_tmp ny_tmp nz_tmp : ℚ) :
    box_test x0 y0 z0 x0 y0 z0 wx0 wy0 wz0 wx1 wy1 wz1 nx_tmp ny_tmp nz_tmp
      = ⟨2, nx_tmp, ny_tmp, nz_tmp⟩ := by
  simp only [box_test, collision_plane_zero_segment]

theorem scenario_slow_no_hit :
    ∀ j, j < (scenario_store ⟨5, 0, 0⟩).num_entities → j ≠ 0 →
      (target_test
        (sweep_start ((scenario_store ⟨5, 0, 0⟩).entities 0)
          (hitbox_w ((scenario_store ⟨5, 0, 0⟩).entities 0))
          (hitbox_h ((scenario_store ⟨5, 0, 0⟩).entities 0))
          (hitbox_d ((scenario_store ⟨5, 0, 0⟩).entities 0)))
        (sweep_end ((scenario_store ⟨5, 0, 0⟩).entities 0)
          (hitbox_w ((scenario_store ⟨5, 0, 0⟩).entities 0))
          (hitbox_h ((scenario_store ⟨5, 0, 0⟩).entities 0))
          (hitbox_d ((scenario_store ⟨5, 0, 0⟩).entities 0)) (1/20))
        ((scenario_store ⟨5, 0, 0⟩).entities j)
        (hitbox_w ((scenario_store ⟨5, 0, 0⟩).entities 0))
        (hitbox_h ((scenario_store ⟨5, 0, 0⟩).entities 0))
        (hitbox_d ((scenario_store ⟨5, 0, 0⟩).entities 0))).t = 2 := by
  intro j hj hj0
  have hj1 : j = 1 := by
    have : j < 2 := hj
    omega
  subst hj1
  norm_num [scenario_store, entity_at, target_test, expand_hitbox, sweep_start, sweep_end,
    hitbox_w, hitbox_h, hitbox_d, box_test, collision_plane]

theorem scenario_fast_no_hit :
    ∀ j, j < (scenario_store ⟨1000, 0, 0⟩).num_entities → j ≠ 0 →
      (target_test
        (sweep_start ((scenario_store ⟨1000, 0, 0⟩).entities 0)
          (hitbox_w ((scenario_store ⟨1000, 0, 0⟩).entities 0))
          (hitbox_h ((scenario_store ⟨1000, 0, 0⟩).entities 0))
          (hitbox_d ((scenario_store ⟨1000, 0, 0⟩).entities 0)))
        (sweep_end ((scenario_store ⟨1000, 0, 0⟩).entities 0)
          (hitbox_w ((scenario_store ⟨1000, 0, 0⟩).entities 0))
          (hitbox_h ((scenario_store ⟨1000, 0, 0⟩).entities 0))
          (hitbox_d ((scenario_store ⟨1000, 0, 0⟩).entities 0)) (1/20))
        ((scenario_store ⟨1000, 0, 0⟩).entities j)
        (hitbox_w ((scenario_store ⟨1000, 0, 0⟩).entities 0))
        (hitbox_h ((scenario_store ⟨1000, 0, 0⟩).entities 0))
        (hitbox_d ((scenario_store ⟨1000, 0, 0⟩).entities 0))).t = 2 := by
  intro j hj hj0
  have hj1 : j = 1 := by
    have : j < 2 := hj
    omega
  subst hj1
  norm_num [scenario_store, entity_at, target_test, expand_hitbox, sweep_start, sweep_end,
    hitbox_w, hitbox_h, hitbox_d, box_test, collision_plane]

theorem sweep_end_zero_vel (e : Entity) (w h d dt : ℚ) (hv : e.vel = ⟨0, 0, 0⟩) :
    sweep_end e w h d dt = sweep_start e w h d := by
  simp [sweep_end, hv]

theorem zero_vel_no_hit (s : State) (ei : Nat) (dt : ℚ)
    (hv : (s.entities ei).vel = ⟨0, 0, 0⟩) : first_iteration_no_hit s ei dt := by
  intro j _ _
  rw [sweep_end_zero_vel _ _ _ _ _ hv]
  simp only [target_test, box_test_zero_segment]

/-! ## `handle_collision`: the sweep without a hit -/

/-- C11: for every store, entity `e` (slot `ei`) and `dt`, if in the first
iteration no other entity's expanded box yields a hit, `handle_collision` ends
with `e.pos = old pos + old vel * dt` and `e.vel` unchanged. -/
theorem handle_collision_free_move (normalize : ℚ → ℚ → ℚ × ℚ) (s : State) (ei : Nat) (dt : ℚ)
    (hfree : first_iteration_no_hit s ei dt) :
    ((handle_collision normalize s ei dt).entities ei).pos =
      ⟨(s.entities ei).pos.x + (s.entities ei).vel.x * dt,
        (s.entities ei).pos.y + (s.entities ei).vel.y * dt,
        (s.entities ei).pos.z + (s.entities ei).vel.z * dt⟩ ∧
    ((handle_collision normalize s ei dt).entities ei).vel = (s.entities ei).vel := by
  rw [handle_collision_no_hit normalize s ei dt hfree]
  simp [State.store]

theorem handle_collision_free_move_witness :
    first_iteration_no_hit (scenario_store ⟨5, 0, 0⟩) 0 (1/20) ∧
    ((handle_collision normalize_xy (scenario_store ⟨5, 0, 0⟩) 0 (1/20)).entities 0).pos
      = ⟨1/4, 0, 0⟩ ∧
    ((handle_collision normalize_xy (scenario_store ⟨5, 0, 0⟩) 0 (1/20)).entities 0).vel
      = ⟨5, 0, 0⟩ := by
  have h := handle_collision_free_move normalize_xy (scenario_store ⟨5, 0, 0⟩) 0 (1/20)
    scenario_slow_no_hit
  refine ⟨scenario_slow_no_hit, ?_, ?_⟩
  · rw [h.1]; norm_num [scenario_store, entity_at]
  · rw [h.2]; simp [scenario_store, entity_at]

/-- C12 (failing input): in the store holding A (hitbox `[-0.5,0.5]^3`, at the
origin, velocity `(1000,0,0)`) and the Wall B (hitbox `[-0.1,-4,-2]-[0.1,4,2]` at
`(4,0,0)`), the scan of the first iteration of `handle_collision(A, 1/20)` selects
no entity, and the call ends with A at `(50,0,0)` and velocity `(1000,0,0)`,
whatever `normalize` does. -/
theorem handle_collision_passes_through_wall (normalize : ℚ → ℚ → ℚ × ℚ) :
    first_iteration_no_hit (scenario_store ⟨1000, 0, 0⟩) 0 (1/20) ∧
    ((handle_collision normalize (scenario_store ⟨1000, 0, 0⟩) 0 (1/20)).entities 0).pos
      = ⟨50, 0, 0⟩ ∧
    ((handle_collision normalize (scenario_store ⟨1000, 0, 0⟩) 0 (1/20)).entities 0).vel
      = ⟨1000, 0, 0⟩ := by
  rw [handle_collision_no_hit normalize _ 0 (1/20) scenario_fast_no_hit]
  refine ⟨scenario_fast_no_hit, ?_, ?_⟩
  · norm_num [State.store, scenario_store, entity_at]
  · simp [State.store, scenario_store, entity_at]

/-- C13: for every store (whatever the other entities are and wherever they
lie), every entity `e` (slot `ei`) with velocity `(0,0,0)` and every `dt`
(positive or not), `handle_collision` leaves `e.pos` and `e.vel` unchanged. -/
theorem handle_collision_zero_velocity (normalize : ℚ → ℚ → ℚ × ℚ) (s : State) (ei : Nat)
    (dt : ℚ) (hv : (s.entities ei).vel = ⟨0, 0, 0⟩) :
    ((handle_collision normalize s ei dt).entities ei).pos = (s.entities ei).pos ∧
    ((handle_collision normalize s ei dt).entities ei).vel = (s.entities ei).vel := by
  rw [handle_collision_no_hit normalize s ei dt (zero_vel_no_hit s ei dt hv)]
  simp [State.store, hv]

theorem handle_collision_zero_velocity_witness :
    ((scenario_store ⟨0, 0, 0⟩).entities 0).vel = ⟨0, 0, 0⟩ ∧
    ((handle_collision normalize_xy (scenario_store ⟨0, 0, 0⟩) 0 (1/20)).entities 0).pos
      = ((scenario_store ⟨0, 0, 0⟩).entities 0).pos ∧
    ((handle_collision normalize_xy (scenario_store ⟨0, 0, 0⟩) 0 (1/20)).entities 0).vel
      = ((scenario_store ⟨0, 0, 0⟩).entities 0).vel :=
  ⟨rfl, handle_collision_zero_velocity normalize_xy (scenario_store ⟨0, 0, 0⟩) 0 (1/20) rfl⟩

/-! ## `handle_collision`: the response to a Wall -/

theorem handle_collision_iter_wall (normalize : ℚ → ℚ → ℚ × ℚ) (s : State) (ei : Nat)
    (w h d dt : ℚ) (k : Nat)
    (hhit : (iteration_scan s ei w h d dt).hit = some k)
    (hwall : (s.entities k).type = ENTITY_TYPE_WALL) :
    handle_collision_iter normalize s ei w h d dt =
      some (s.store ei { s.entities ei with
        pos := glide_position (sweep_start (s.entities ei) w h d)
          (sweep_delta (s.entities ei) w h d dt)
          (hit_normal normalize (iteration_scan s ei w h d dt))
          (iteration_scan s ei w h d dt).t,
        vel := glide_velocity (sweep_delta (s.entities ei) w h d dt)
          (hit_normal normalize (iteration_scan s ei w h d dt)) dt }) := by
  unfold iteration_scan at hhit
  simp only [handle_collision_iter, hhit, hwall, if_true, hit_normal, v3_dot, sweep_delta,
    glide_position, glide_velocity, iteration_scan]

theorem sweep_delta_eq (e : Entity) (w h d dt : ℚ) :
    sweep_delta e w h d dt = ⟨e.vel.x * dt, e.vel.y * dt, e.vel.z * dt⟩ := by
  simp [sweep_delta, sweep_end]

theorem glide_velocity_eq (a n : v3) (dt : ℚ) (hdt : dt ≠ 0) :
    glide_velocity ⟨a.x * dt, a.y * dt, a.z * dt⟩ n dt =
      ⟨a.x - v3_dot a n * n.x, a.y - v3_dot a n * n.y, a.z - v3_dot a n * n.z⟩ := by
  simp only [glide_velocity, v3_dot, v3.mk.injEq]
  refine ⟨?_, ?_, ?_⟩ <;> field_simp <;> ring

theorem glide_velocity_props (a n : v3) (dt : ℚ) (hdt : dt ≠ 0) (hn : v3_dot n n = 1) :
    v3_dot (glide_velocity ⟨a.x * dt, a.y * dt, a.z * dt⟩ n dt) n = 0 ∧
    (∀ u : v3, v3_dot u n = 0 →
      v3_dot (glide_velocity ⟨a.x * dt, a.y * dt, a.z * dt⟩ n dt) u = v3_dot a u) ∧
    v3_dot (glide_velocity ⟨a.x * dt, a.y * dt, a.z * dt⟩ n dt)
        (glide_velocity ⟨a.x * dt, a.y * dt, a.z * dt⟩ n dt) ≤ v3_dot a a := by
  rw [glide_velocity_eq a n dt hdt]
  simp only [v3_dot] at hn ⊢
  refine ⟨?_, ?_, ?_⟩
  · have : (a.x - (a.x * n.x + a.y * n.y + a.z * n.z) * n.x) * n.x
        + (a.y - (a.x * n.x + a.y * n.y + a.z * n.z) * n.y) * n.y
        + (a.z - (a.x * n.x + a.y * n.y + a.z * n.z) * n.z) * n.z
        = (a.x * n.x + a.y * n.y + a.z * n.z) * (1 - (n.x * n.x + n.y * n.y + n.z * n.z)) := by
      ring
    rw [this, hn]; ring
  · intro u hu
    have : (a.x - (a.x * n.x + a.y * n.y + a.z * n.z) * n.x) * u.x
        + (a.y - (a.x * n.x + a.y * n.y + a.z * n.z) * n.y) * u.y
        + (a.z - (a.x * n.x + a.y * n.y + a.z * n.z) * n.z) * u.z
        = (a.x * u.x + a.y * u.y + a.z * u.z)
          - (a.x * n.x + a.y * n.y + a.z * n.z) * (u.x * n.x + u.y * n.y + u.z * n.z) := by
      ring
    rw [this, hu]; ring
  · have : (a.x - (a.x * n.x + a.y * n.y + a.z * n.z) * n.x)
          * (a.x - (a.x * n.x + a.y * n.y + a.z * n.z) * n.x)
        + (a.y - (a.x * n.x + a.y * n.y + a.z * n.z) * n.y)
          * (a.y - (a.x * n.x + a.y * n.y + a.z * n.z) * n.y)
        + (a.z - (a.x * n.x + a.y * n.y + a.z * n.z) * n.z)
          * (a.z - (a.x * n.x + a.y * n.y + a.z * n.z) * n.z)
        = (a.x * a.x + a.y * a.y + a.z * a.z)
          - (a.x * n.x + a.y * n.y + a.z * n.z) ^ 2
              * (2 - (n.x * n.x + n.y * n.y + n.z * n.z)) := by
      ring
    rw [this, hn]
    nlinarith [sq_nonneg (a.x * n.x + a.y * n.y + a.z * n.z)]

theorem normalize_xy_one_zero : normalize_xy 1 0 = (1, 0) := by
  norm_num [normalize_xy]

theorem glide_store_scan : iteration_scan glide_store 0 0 0 0 1 = ⟨some 1, 1/2, 1, 0, 0⟩ := by
  have hr : List.range 2 = [0, 1] := rfl
  simp only [iteration_scan, handle_collision_scan, glide_store, hr, List.foldl_cons,
    List.foldl_nil]
  norm_num [handle_collision_step, entity_at, target_test, expand_hitbox, box_test,
    collision_plane, sweep_start, sweep_end]

theorem glide_store_wall : (glide_store.entities 1).type = ENTITY_TYPE_WALL := by
  simp [glide_store, entity_at]

/-- C14 (amended): reading the arithmetic as exact, in an iteration of
`handle_collision` whose nearest hit is a Wall (slot `k`), with `dt > 0`,
`v = p1 - p0` and `n` the hit normal after `normalize`, the
iteration continues from a state in which the entity's velocity is
`(v - (v.n) n) / dt`; when `n` is a unit vector this velocity has zero component
along `n`, the same component as the old velocity along every direction
perpendicular to `n`, and squared magnitude at most that of the old velocity. -/
theorem handle_collision_wall_glide (normalize : ℚ → ℚ → ℚ × ℚ) (s : State) (ei : Nat)
    (w h d dt : ℚ) (k : Nat) (hdt : 0 < dt)
    (hhit : (iteration_scan s ei w h d dt).hit = some k)
    (hwall : (s.entities k).type = ENTITY_TYPE_WALL) :
    ∃ s1, handle_collision_iter normalize s ei w h d dt = some s1 ∧
      (s1.entities ei).vel =
        ⟨((sweep_delta (s.entities ei) w h d dt).x
            - v3_dot (sweep_delta (s.entities ei) w h d dt)
                (hit_normal normalize (iteration_scan s ei w h d dt))
              * (hit_normal normalize (iteration_scan s ei w h d dt)).x) / dt,
          ((sweep_delta (s.entities ei) w h d dt).y
            - v3_dot (sweep_delta (s.entities ei) w h d dt)
                (hit_normal normalize (iteration_scan s ei w h d dt))
              * (hit_normal normalize (iteration_scan s ei w h d dt)).y) / dt,
          ((sweep_delta (s.entities ei) w h d dt).z
            - v3_dot (sweep_delta (s.entities ei) w h d dt)
                (hit_normal normalize (iteration_scan s ei w h d dt))
              * (hit_normal normalize (iteration_scan s ei w h d dt)).z) / dt⟩ ∧
      (v3_dot (hit_normal normalize (iteration_scan s ei w h d dt))
          (hit_normal normalize (iteration_scan s ei w h d dt)) = 1 →
        v3_dot (s1.entities ei).vel (hit_normal normalize (iteration_scan s ei w h d dt)) = 0 ∧
        (∀ u : v3, v3_dot u (hit_normal normalize (iteration_scan s ei w h d dt)) = 0 →
          v3_dot (s1.entities ei).vel u = v3_dot (s.entities ei).vel u) ∧
        v3_dot (s1.entities ei).vel (s1.entities ei).vel
          ≤ v3_dot (s.entities ei).vel (s.entities ei).vel) := by
  refine ⟨_, handle_collision_iter_wall normalize s ei w h d dt k hhit hwall, ?_, ?_⟩
  · simp [State.store, glide_velocity]
  · intro hn
    have hvel : ((s.store ei { s.entities ei with
        pos := glide_position (sweep_start (s.entities ei) w h d)
          (sweep_delta (s.entities ei) w h d dt)
          (hit_normal normalize (iteration_scan s ei w h d dt))
          (iteration_scan s ei w h d dt).t,
        vel := glide_velocity (sweep_delta (s.entities ei) w h d dt)
          (hit_normal normalize (iteration_scan s ei w h d dt)) dt }).entities ei).vel
        = glide_velocity ⟨(s.entities ei).vel.x * dt, (s.entities ei).vel.y * dt,
            (s.entities ei).vel.z * dt⟩
            (hit_normal normalize (iteration_scan s ei w h d dt)) dt := by
      simp [State.store, sweep_delta_eq]
    rw [hvel]
    exact glide_velocity_props (s.entities ei).vel _ dt (ne_of_gt hdt) hn

theorem handle_collision_wall_glide_witness :
    (0 : ℚ) < 1 ∧
    (iteration_scan glide_store 0 0 0 0 1).hit = some 1 ∧
    (glide_store.entities 1).type = ENTITY_TYPE_WALL ∧
    v3_dot (hit_normal normalize_xy (iteration_scan glide_store 0 0 0 0 1))
      (hit_normal normalize_xy (iteration_scan glide_store 0 0 0 0 1)) = 1 ∧
    ∃ s1, handle_collision_iter normalize_xy glide_store 0 0 0 0 1 = some s1 ∧
      (s1.entities 0).vel = ⟨0, 1/5, 0⟩ ∧
      v3_dot (s1.entities 0).vel (hit_normal normalize_xy (iteration_scan glide_store 0 0 0 0 1))
        = 0 ∧
      v3_dot (s1.entities 0).vel (s1.entities 0).vel
        ≤ v3_dot (glide_store.entities 0).vel (glide_store.entities 0).vel := by
  have hhit : (iteration_scan glide_store 0 0 0 0 1).hit = some 1 := by rw [glide_store_scan]
  have hunit : v3_dot (hit_normal normalize_xy (iteration_scan glide_store 0 0 0 0 1))
      (hit_normal normalize_xy (iteration_scan glide_store 0 0 0 0 1)) = 1 := by
    rw [glide_store_scan]
    norm_num [hit_normal, normalize_xy_one_zero, v3_dot]
  obtain ⟨s1, hs1, hvel, hprops⟩ :=
    handle_collision_wall_glide normalize_xy glide_store 0 0 0 0 1 1 (by norm_num) hhit
      glide_store_wall
  refine ⟨by norm_num, hhit, glide_store_wall, hunit, s1, hs1, ?_, (hprops hunit).1,
    (hprops hunit).2.2⟩
  rw [hvel, glide_store_scan]
  norm_num [hit_normal, normalize_xy_one_zero, v3_dot, sweep_delta, sweep_end, sweep_start,
    glide_store, entity_at]

/-- C15 (as stated, refuted): `main_loop` computes `dt = -1/200` from the
timestamps `ms = 0`, `last_ms = 5`; `handle_collision` called with this `dt` on
the scenario store does not abort: it returns, with entity A moved to
`(-1/40,0,0)`. -/
theorem handle_collision_negative_dt_returns :
    main_loop_dt 0 5 = -1/200 ∧ main_loop_dt 0 5 ≤ 0 ∧
    handle_collision_call normalize_xy (scenario_store ⟨5, 0, 0⟩) 0 (main_loop_dt 0 5) ≠ none ∧
    ∃ s1, handle_collision_call normalize_xy (scenario_store ⟨5, 0, 0⟩) 0 (main_loop_dt 0 5)
        = some s1 ∧ (s1.entities 0).pos = ⟨-1/40, 0, 0⟩ := by
  have hdt : main_loop_dt 0 5 = -1/200 := by norm_num [main_loop_dt]
  have hfree : first_iteration_no_hit (scenario_store ⟨5, 0, 0⟩) 0 (-1/200) := by
    intro j hj hj0
    have hj1 : j = 1 := by
      have : j < 2 := hj
      omega
    subst hj1
    norm_num [scenario_store, entity_at, target_test, expand_hitbox, sweep_start, sweep_end,
      hitbox_w, hitbox_h, hitbox_d, box_test, collision_plane]
  refine ⟨hdt, by rw [hdt]; norm_num, by simp [handle_collision_call], _, rfl, ?_⟩
  rw [hdt, handle_collision_no_hit normalize_xy _ 0 (-1/200) hfree]
  norm_num [State.store, scenario_store, entity_at]

/-- C15 (amended): for every store and entity `e`, `handle_collision` invoked
with `dt ≤ 0` does not abort: no check on `dt` is made and the call returns the
updated state, as it does for positive `dt`. -/
theorem handle_collision_nonpositive_dt_returns (normalize : ℚ → ℚ → ℚ × ℚ) (s : State)
    (ei : Nat) (dt : ℚ) (_hdt : dt ≤ 0) :
    ∃ s1, handle_collision_call normalize s ei dt = some s1 ∧
      s1 = handle_collision normalize s ei dt :=
  ⟨_, rfl, rfl⟩

theorem handle_collision_nonpositive_dt_returns_witness :
    (-1/200 : ℚ) ≤ 0 ∧
    ∃ s1, handle_collision_call normalize_xy (scenario_store ⟨5, 0, 0⟩) 0 (-1/200) = some s1 ∧
      s1 = handle_collision normalize_xy (scenario_store ⟨5, 0, 0⟩) 0 (-1/200) :=
  ⟨by norm_num,
    handle_collision_nonpositive_dt_returns normalize_xy (scenario_store ⟨5, 0, 0⟩) 0 (-1/200)
      (by norm_num)⟩

/-- C16 (as stated, refuted): for an entity of kind `ENTITY_TYPE_NULL` (None),
which belongs to the closed set of kinds, the `ENUM_CHECK` of `main_loop`
aborts. -/
theorem main_loop_enum_check_aborts_on_null :
    (entity_with_priority PRIORITY_MAP).type = ENTITY_TYPE_NULL ∧
    main_loop_enum_check (entity_with_priority PRIORITY_MAP) = none := by
  refine ⟨rfl, ?_⟩
  simp [main_loop_enum_check, ENUM_CHECK, entity_with_priority, ENTITY_TYPE_NULL,
    ENTITY_TYPE_COUNT]

/-- C16 (amended): the `ENUM_CHECK` on `e->type` in `main_loop` aborts for an
entity exactly when its kind value lies outside the set {Player, Wall, Monster,
Derper, Thing}; it aborts for None (`ENTITY_TYPE_NULL`) as well, and for every
kind inside that set it does not abort. -/
theorem main_loop_enum_check_aborts_iff (e : Entity) :
    (main_loop_enum_check e = none ↔
      ¬ (e.type = ENTITY_TYPE_PLAYER ∨ e.type = ENTITY_TYPE_WALL ∨ e.type = ENTITY_TYPE_MONSTER ∨
          e.type = ENTITY_TYPE_DERPER ∨ e.type = ENTITY_TYPE_THING)) ∧
    (main_loop_enum_check e = some () ↔
      (e.type = ENTITY_TYPE_PLAYER ∨ e.type = ENTITY_TYPE_WALL ∨ e.type = ENTITY_TYPE_MONSTER ∨
          e.type = ENTITY_TYPE_DERPER ∨ e.type = ENTITY_TYPE_THING)) := by
  simp only [main_loop_enum_check, ENUM_CHECK, ENTITY_TYPE_NULL, ENTITY_TYPE_COUNT,
    ENTITY_TYPE_PLAYER, ENTITY_TYPE_WALL, ENTITY_TYPE_MONSTER, ENTITY_TYPE_DERPER,
    ENTITY_TYPE_THING]
  constructor
  · split_ifs with h
    · simp only [true_iff]; omega
    · simp only [reduceCtorEq, false_iff, not_not]; omega
  · split_ifs with h
    · simp only [reduceCtorEq, false_iff]; omega
    · simp only [true_iff]; omega

/-! ## The face normal and the expanded box -/

/-- C17 (failing input): for the face with origin `(0,0,0)` and corners `(1,1,0)`,
`(0,0,1)` and the segment `(1/4,0,0) -> (5/4,0,0)`, `collision_plane` reports a
hit with normal `(1,0,-1)`, whereas the cross product of the edge vectors is
`(1,-1,0)`; for the `y0` face of the unit box (origin `(0,0,0)`, corners `(1,0,0)`,
`(0,0,1)`) it computes the normal `(0,0,0)`, whereas the cross product is
`(0,-1,0)`. -/
theorem collision_plane_normal_not_cross :
    collision_plane (1/4) 0 0 (5/4) 0 0 0 0 0 1 1 0 0 0 1 ⟨2, 0, 0, 0⟩ = ⟨1/4, 1, 0, -1⟩ ∧
    plane_normal ⟨0, 0, 0, 1, 1, 0, 0, 0, 1⟩ = (1, 0, -1) ∧
    cross_product (1 - 0, 1 - 0, 0 - 0) (0 - 0, 0 - 0, 1 - 0) = (1, -1, 0) ∧
    plane_normal ⟨0, 0, 0, 1, 0, 0, 0, 0, 1⟩ = (0, 0, 0) ∧
    cross_product (1 - 0, 0 - 0, 0 - 0) (0 - 0, 0 - 0, 1 - 0) = (0, -1, 0) := by
  refine ⟨?_, ?_, ?_, ?_, ?_⟩
  · norm_num [collision_plane]
  · norm_num [plane_normal]
  · norm_num [cross_product]
  · norm_num [plane_normal]
  · norm_num [cross_product]

/-- C18 (failing input): the box `handle_collision` tests against is the target's
world box enlarged by `w` on x and by `h` on both y and z; `d` is not used.  For
a moving entity with hitbox `(0,0,0)-(2,4,6)` (half extents 1, 2, 3) and a target
with hitbox `(0,0,0)-(1,1,1)` at the origin the tested box is
`(-1,-2,-2)-(2,3,3)`, not the box `(-1,-2,-3)-(2,3,4)` enlarged by `d` on z. -/
theorem expand_hitbox_z_uses_h (target : Entity) (w h d : ℚ) :
    expand_hitbox target w h d = minkowski_box target w h h ∧
    expand_hitbox (entity_at ENTITY_TYPE_WALL ⟨0, 0, 0⟩ ⟨0, 0, 0⟩ ⟨0, 0, 0, 1, 1, 1⟩)
        (hitbox_w (entity_at ENTITY_TYPE_PLAYER ⟨0, 0, 0⟩ ⟨0, 0, 0⟩ ⟨0, 0, 0, 2, 4, 6⟩))
        (hitbox_h (entity_at ENTITY_TYPE_PLAYER ⟨0, 0, 0⟩ ⟨0, 0, 0⟩ ⟨0, 0, 0, 2, 4, 6⟩))
        (hitbox_d (entity_at ENTITY_TYPE_PLAYER ⟨0, 0, 0⟩ ⟨0, 0, 0⟩ ⟨0, 0, 0, 2, 4, 6⟩))
      = ⟨-1, -2, -2, 2, 3, 3⟩ ∧
    minkowski_box (entity_at ENTITY_TYPE_WALL ⟨0, 0, 0⟩ ⟨0, 0, 0⟩ ⟨0, 0, 0, 1, 1, 1⟩)
        (hitbox_w (entity_at ENTITY_TYPE_PLAYER ⟨0, 0, 0⟩ ⟨0, 0, 0⟩ ⟨0, 0, 0, 2, 4, 6⟩))
        (hitbox_h (entity_at ENTITY_TYPE_PLAYER ⟨0, 0, 0⟩ ⟨0, 0, 0⟩ ⟨0, 0, 0, 2, 4, 6⟩))
        (hitbox_d (entity_at ENTITY_TYPE_PLAYER ⟨0, 0, 0⟩ ⟨0, 0, 0⟩ ⟨0, 0, 0, 2, 4, 6⟩))
      = ⟨-1, -2, -3, 2, 3, 4⟩ := by
  refine ⟨?_, ?_, ?_⟩
  · simp only [expand_hitbox, minkowski_box, Cube.mk.injEq]
    refine ⟨?_, ?_, ?_, ?_, ?_, ?_⟩ <;> ring
  · norm_num [expand_hitbox, entity_at, hitbox_w, hitbox_h, hitbox_d]
  · norm_num [minkowski_box, entity_at, hitbox_w, hitbox_h, hitbox_d]

/-! ## The nearest hit of an iteration -/

/-- C19: in every iteration of `handle_collision` (any sweep `p0 -> p1`, any
half extents), no entity is selected exactly when no entity other than `e` in
slots `0 .. num_entities-1` produces a hit; otherwise the selected entity is in
such a slot, is not `e`, produces a hit, `t` and the normal are its tester
result, no other hit-producing entity has a smaller `t`, and every
hit-producing entity in a lower slot has a strictly larger `t`. -/
theorem handle_collision_scan_nearest (s : State) (ei : Nat) (p0 p1 : v3) (w h d : ℚ) :
    ((handle_collision_scan s ei p0 p1 w h d).hit = none ↔
      ∀ j, j < s.num_entities → j ≠ ei → (target_test p0 p1 (s.entities j) w h d).t = 2) ∧
    ((handle_collision_scan s ei p0 p1 w h d).hit = none ∨
      ∃ k, (handle_collision_scan s ei p0 p1 w h d).hit = some k ∧
        k < s.num_entities ∧ k ≠ ei ∧
        (target_test p0 p1 (s.entities k) w h d).t ≠ 2 ∧
        (handle_collision_scan s ei p0 p1 w h d).t = (target_test p0 p1 (s.entities k) w h d).t ∧
        (handle_collision_scan s ei p0 p1 w h d).nx = (target_test p0 p1 (s.entities k) w h d).nx ∧
        (handle_collision_scan s ei p0 p1 w h d).ny = (target_test p0 p1 (s.entities k) w h d).ny ∧
        (handle_collision_scan s ei p0 p1 w h d).nz = (target_test p0 p1 (s.entities k) w h d).nz ∧
        (∀ j, j < s.num_entities → j ≠ ei → (target_test p0 p1 (s.entities j) w h d).t ≠ 2 →
          (target_test p0 p1 (s.entities k) w h d).t
            ≤ (target_test p0 p1 (s.entities j) w h d).t) ∧
        (∀ j, j < k → j ≠ ei → (target_test p0 p1 (s.entities j) w h d).t ≠ 2 →
          (target_test p0 p1 (s.entities k) w h d).t
            < (target_test p0 p1 (s.entities j) w h d).t)) := by
  unfold handle_collision_scan
  rcases handle_collision_scan_aux s ei p0 p1 w h d s.num_entities with
    ⟨hr, hall⟩ | ⟨k, hk, hke, hk2, hr, hmin, hfirst⟩
  · rw [hr]
    exact ⟨⟨fun _ => hall, fun _ => rfl⟩, Or.inl rfl⟩
  · rw [hr]
    refine ⟨⟨fun hnone => ?_, fun hall => absurd (hall k hk hke) hk2⟩, Or.inr ?_⟩
    · simp at hnone
    · exact ⟨k, rfl, hk, hke, hk2, rfl, rfl, rfl, rfl, hmin, hfirst⟩

/-! ## `handle_collision`: a nearest hit that is not a Wall, and the frame -/

theorem handle_collision_iter_non_wall (normalize : ℚ → ℚ → ℚ × ℚ) (s : State) (ei : Nat)
    (w h d dt : ℚ) (k : Nat)
    (hhit : (iteration_scan s ei w h d dt).hit = some k)
    (hnot : (s.entities k).type ≠ ENTITY_TYPE_WALL) :
    handle_collision_iter normalize s ei w h d dt = some s := by
  unfold iteration_scan at hhit
  simp only [handle_collision_iter, hhit, if_neg hnot]

theorem handle_collision_loop_non_wall (normalize : ℚ → ℚ → ℚ × ℚ) (s : State) (ei : Nat)
    (w h d dt : ℚ) (k : Nat)
    (hhit : (iteration_scan s ei w h d dt).hit = some k)
    (hnot : (s.entities k).type ≠ ENTITY_TYPE_WALL) (n : Nat) :
    handle_collision_loop normalize ei w h d dt n s = s := by
  induction n with
  | zero => rfl
  | succ n ih =>
    simp only [handle_collision_loop,
      handle_collision_iter_non_wall normalize s ei w h d dt k hhit hnot]
    exact ih

theorem monster_store_scan :
    iteration_scan monster_store 0 0 0 0 1 = ⟨some 1, 1/2, 1, 0, 0⟩ := by
  have hr : List.range 2 = [0, 1] := rfl
  simp only [iteration_scan, handle_collision_scan, monster_store, hr, List.foldl_cons,
    List.foldl_nil]
  norm_num [handle_collision_step, entity_at, target_test, expand_hitbox, box_test,
    collision_plane, sweep_start, sweep_end]

theorem monster_store_extents :
    hitbox_w (monster_store.entities 0) = 0 ∧ hitbox_h (monster_store.entities 0) = 0 ∧
    hitbox_d (monster_store.entities 0) = 0 := by
  simp [monster_store, entity_at, hitbox_w, hitbox_h, hitbox_d]

theorem monster_store_not_wall : (monster_store.entities 1).type ≠ ENTITY_TYPE_WALL := by
  simp [monster_store, entity_at, ENTITY_TYPE_MONSTER, ENTITY_TYPE_WALL]

theorem only_pos_vel_changed_refl (ei : Nat) (s : State) : only_pos_vel_changed ei s s :=
  ⟨rfl, fun _ _ => rfl, rfl, rfl, rfl, rfl, rfl, rfl⟩

theorem only_pos_vel_changed_trans (ei : Nat) (s s1 s2 : State)
    (h1 : only_pos_vel_changed ei s s1) (h2 : only_pos_vel_changed ei s1 s2) :
    only_pos_vel_changed ei s s2 := by
  obtain ⟨a1, a2, a3, a4, a5, a6, a7, a8⟩ := h1
  obtain ⟨b1, b2, b3, b4, b5, b6, b7, b8⟩ := h2
  exact ⟨b1.trans a1, fun j hj => (b2 j hj).trans (a2 j hj), b3.trans a3, b4.trans a4,
    b5.trans a5, b6.trans a6, b7.trans a7, b8.trans a8⟩

theorem only_pos_vel_changed_store (ei : Nat) (s : State) (pos vel : v3) :
    only_pos_vel_changed ei s (s.store ei { s.entities ei with pos := pos, vel := vel }) := by
  refine ⟨rfl, ?_, ?_, ?_, ?_, ?_, ?_, ?_⟩
  · intro j hj
    simp [State.store, hj]
  all_goals simp [State.store]

theorem handle_collision_iter_frame (normalize : ℚ → ℚ → ℚ × ℚ) (s s1 : State) (ei : Nat)
    (w h d dt : ℚ) (hs1 : handle_collision_iter normalize s ei w h d dt = some s1) :
    only_pos_vel_changed ei s s1 := by
  cases hhit : (iteration_scan s ei w h d dt).hit with
  | none =>
    have hnone : handle_collision_iter normalize s ei w h d dt = none := by
      unfold iteration_scan at hhit
      simp only [handle_collision_iter, hhit]
    rw [hnone] at hs1
    cases hs1
  | some k =>
    by_cases hwall : (s.entities k).type = ENTITY_TYPE_WALL
    · rw [handle_collision_iter_wall normalize s ei w h d dt k hhit hwall] at hs1
      cases hs1
      exact only_pos_vel_changed_store ei s _ _
    · rw [handle_collision_iter_non_wall normalize s ei w h d dt k hhit hwall] at hs1
      cases hs1
      exact only_pos_vel_changed_refl ei s

theorem handle_collision_loop_frame (normalize : ℚ → ℚ → ℚ × ℚ) (ei : Nat) (w h d dt : ℚ)
    (n : Nat) : ∀ s : State,
      only_pos_vel_changed ei s (handle_collision_loop normalize ei w h d dt n s) := by
  induction n with
  | zero => intro s; exact only_pos_vel_changed_refl ei s
  | succ n ih =>
    intro s
    cases hiter : handle_collision_iter normalize s ei w h d dt with
    | none =>
      simp only [handle_collision_loop, hiter]
      exact only_pos_vel_changed_refl ei s
    | some s1 =>
      simp only [handle_collision_loop, hiter]
      exact only_pos_vel_changed_trans ei s s1 _
        (handle_collision_iter_frame normalize s s1 ei w h d dt hiter) (ih s1)

theorem handle_collision_frame (normalize : ℚ → ℚ → ℚ × ℚ) (s : State) (ei : Nat) (dt : ℚ) :
    only_pos_vel_changed ei s (handle_collision normalize s ei dt) := by
  have hloop := handle_collision_loop_frame normalize ei (hitbox_w (s.entities ei))
    (hitbox_h (s.entities ei)) (hitbox_d (s.entities ei)) dt 4 s
  have hstore : ∀ (s1 : State) (pos : v3),
      only_pos_vel_changed ei s1 (s1.store ei { s1.entities ei with pos := pos }) := by
    intro s1 pos
    exact only_pos_vel_changed_store ei s1 pos (s1.entities ei).vel
  exact only_pos_vel_changed_trans ei s _ _ hloop (hstore _ _)

/-- C21: for every store, entity `e` (slot `ei`) and `dt`, if the nearest hit
found in the first iteration of `handle_collision` is an entity (slot `k`) whose
kind is not Wall, then the state after any number of iterations is the state
before them, and `handle_collision` returns with `e.pos = old pos + old vel * dt`
and `e.vel` unchanged. -/
theorem handle_collision_non_wall_hit (normalize : ℚ → ℚ → ℚ × ℚ) (s : State) (ei : Nat)
    (dt : ℚ) (k : Nat)
    (hhit : (iteration_scan s ei (hitbox_w (s.entities ei)) (hitbox_h (s.entities ei))
      (hitbox_d (s.entities ei)) dt).hit = some k)
    (hnot : (s.entities k).type ≠ ENTITY_TYPE_WALL) :
    (∀ n, handle_collision_loop normalize ei (hitbox_w (s.entities ei))
      (hitbox_h (s.entities ei)) (hitbox_d (s.entities ei)) dt n s = s) ∧
    ((handle_collision normalize s ei dt).entities ei).pos =
      ⟨(s.entities ei).pos.x + (s.entities ei).vel.x * dt,
        (s.entities ei).pos.y + (s.entities ei).vel.y * dt,
        (s.entities ei).pos.z + (s.entities ei).vel.z * dt⟩ ∧
    ((handle_collision normalize s ei dt).entities ei).vel = (s.entities ei).vel := by
  have hloop := handle_collision_loop_non_wall normalize s ei _ _ _ dt k hhit hnot
  refine ⟨hloop, ?_, ?_⟩
  · simp only [handle_collision, hloop 4]
    simp [State.store]
  · simp only [handle_collision, hloop 4]
    simp [State.store]

theorem handle_collision_non_wall_hit_witness :
    (iteration_scan monster_store 0 (hitbox_w (monster_store.entities 0))
      (hitbox_h (monster_store.entities 0)) (hitbox_d (monster_store.entities 0)) 1).hit
        = some 1 ∧
    (monster_store.entities 1).type ≠ ENTITY_TYPE_WALL ∧
    ((handle_collision normalize_xy monster_store 0 1).entities 0).pos = ⟨4, 7/10, 1/2⟩ ∧
    ((handle_collision normalize_xy monster_store 0 1).entities 0).vel = ⟨2, 1/5, 0⟩ := by
  have hhit : (iteration_scan monster_store 0 (hitbox_w (monster_store.entities 0))
      (hitbox_h (monster_store.entities 0)) (hitbox_d (monster_store.entities 0)) 1).hit
        = some 1 := by
    rw [monster_store_extents.1, monster_store_extents.2.1, monster_store_extents.2.2,
      monster_store_scan]
  have h := handle_collision_non_wall_hit normalize_xy monster_store 0 1 1 hhit
    monster_store_not_wall
  refine ⟨hhit, monster_store_not_wall, ?_, ?_⟩
  · rw [h.2.1]; norm_num [monster_store, entity_at]
  · rw [h.2.2]; simp [monster_store, entity_at]

/-- C23: for every store, entity `e` (slot `ei`) and `dt`, `handle_collision`
changes nothing except `e.pos` and `e.vel`: `num_entities`, every other entity of
the store, and `e`'s `type`, `priority`, `hitbox`, `animation_time`,
`last_direction` and `target` are the same after the call as before. -/
theorem handle_collision_changes_only_pos_vel (normalize : ℚ → ℚ → ℚ × ℚ) (s : State)
    (ei : Nat) (dt : ℚ) :
    (handle_collision normalize s ei dt).num_entities = s.num_entities ∧
    (∀ j, j ≠ ei → (handle_collision normalize s ei dt).entities j = s.entities j) ∧
    ((handle_collision normalize s ei dt).entities ei).type = (s.entities ei).type ∧
    ((handle_collision normalize s ei dt).entities ei).priority = (s.entities ei).priority ∧
    ((handle_collision normalize s ei dt).entities ei).hitbox = (s.entities ei).hitbox ∧
    ((handle_collision normalize s ei dt).entities ei).animation_time
      = (s.entities ei).animation_time ∧
    ((handle_collision normalize s ei dt).entities ei).last_direction
      = (s.entities ei).last_direction ∧
    ((handle_collision normalize s ei dt).entities ei).target = (s.entities ei).target :=
  handle_collision_frame normalize s ei dt

/-! ## `collision_line` -/

theorem collision_line_eq (x0 y0 x1 y1 wx0 wy0 wx1 wy1 : ℚ) (out : LineOut) :
    collision_line x0 y0 x1 y1 wx0 wy0 wx1 wy1 out =
      if ¬ (abs (line_d x0 y0 x1 y1 wx0 wy0 wx1 wy1) < float_0_0001) ∧
          ¬ (line_t x0 y0 x1 y1 wx0 wy0 wx1 wy1 < 0 ∨ line_t x0 y0 x1 y1 wx0 wy0 wx1 wy1 > 1 ∨
              line_s x0 y0 x1 y1 wx0 wy0 wx1 wy1 < 0 ∨ line_s x0 y0 x1 y1 wx0 wy0 wx1 wy1 > 1) ∧
          line_t x0 y0 x1 y1 wx0 wy0 wx1 wy1 < out.t then
        ⟨line_t x0 y0 x1 y1 wx0 wy0 wx1 wy1, -(wy1 - wy0), wx1 - wx0⟩
      else out := by
  simp only [collision_line, line_d, line_t, line_s]
  split_ifs <;> first | rfl | (exfalso; tauto)

theorem segments_cross_at_iff (x0 y0 x1 y1 wx0 wy0 wx1 wy1 t s : ℚ)
    (hd : line_d x0 y0 x1 y1 wx0 wy0 wx1 wy1 ≠ 0) :
    (x0 + t * (x1 - x0) = wx0 + s * (wx1 - wx0) ∧ y0 + t * (y1 - y0) = wy0 + s * (wy1 - wy0)) ↔
    (t = line_t x0 y0 x1 y1 wx0 wy0 wx1 wy1 ∧ s = line_s x0 y0 x1 y1 wx0 wy0 wx1 wy1) := by
  unfold line_t line_s
  constructor
  · rintro ⟨hx, hy⟩
    constructor
    · rw [eq_div_iff hd]
      unfold line_d
      have hwx : wx0 - x0 = t * (x1 - x0) - s * (wx1 - wx0) := by linarith
      have hwy : wy0 - y0 = t * (y1 - y0) - s * (wy1 - wy0) := by linarith
      rw [hwx, hwy]; ring
    · rw [eq_div_iff hd]
      unfold line_d
      have hwx : wx0 - x0 = t * (x1 - x0) - s * (wx1 - wx0) := by linarith
      have hwy : wy0 - y0 = t * (y1 - y0) - s * (wy1 - wy0) := by linarith
      rw [hwx, hwy]; ring
  · rintro ⟨ht, hs⟩
    rw [eq_div_iff hd] at ht hs
    unfold line_d at ht hs hd
    constructor
    · have h : (x0 + t * (x1 - x0) - (wx0 + s * (wx1 - wx0)))
          * ((x1 - x0) * (wy1 - wy0) - (y1 - y0) * (wx1 - wx0)) = 0 := by
        have e : (x0 + t * (x1 - x0) - (wx0 + s * (wx1 - wx0)))
            * ((x1 - x0) * (wy1 - wy0) - (y1 - y0) * (wx1 - wx0))
            = (t * ((x1 - x0) * (wy1 - wy0) - (y1 - y0) * (wx1 - wx0))) * (x1 - x0)
              - (s * ((x1 - x0) * (wy1 - wy0) - (y1 - y0) * (wx1 - wx0))) * (wx1 - wx0)
              - (wx0 - x0) * ((x1 - x0) * (wy1 - wy0) - (y1 - y0) * (wx1 - wx0)) := by ring
        rw [e, ht, hs]; ring
      rcases mul_eq_zero.mp h with h | h
      · linarith
      · exact absurd h hd
    · have h : (y0 + t * (y1 - y0) - (wy0 + s * (wy1 - wy0)))
          * ((x1 - x0) * (wy1 - wy0) - (y1 - y0) * (wx1 - wx0)) = 0 := by
        have e : (y0 + t * (y1 - y0) - (wy0 + s * (wy1 - wy0)))
            * ((x1 - x0) * (wy1 - wy0) - (y1 - y0) * (wx1 - wx0))
            = (t * ((x1 - x0) * (wy1 - wy0) - (y1 - y0) * (wx1 - wx0))) * (y1 - y0)
              - (s * ((x1 - x0) * (wy1 - wy0) - (y1 - y0) * (wx1 - wx0))) * (wy1 - wy0)
              - (wy0 - y0) * ((x1 - x0) * (wy1 - wy0) - (y1 - y0) * (wx1 - wx0)) := by ring
        rw [e, ht, hs]; ring
      rcases mul_eq_zero.mp h with h | h
      · linarith
      · exact absurd h hd

theorem line_d_ne_zero (x0 y0 x1 y1 wx0 wy0 wx1 wy1 : ℚ)
    (h : ¬ (abs (line_d x0 y0 x1 y1 wx0 wy0 wx1 wy1) < float_0_0001)) :
    line_d x0 y0 x1 y1 wx0 wy0 wx1 wy1 ≠ 0 := by
  intro h0
  rw [h0] at h
  norm_num [float_0_0001] at h

/-- C22 (amended): reading the arithmetic as exact, for every pair of 2D segments
`P0 -> P1`, `W0 -> W1` and every prior value of `*t_out`, `collision_line` lowers
`*t_out` if and only if the segments are not parallel
(`|(P1-P0) x (W1-W0)| ≥ 0.0001f`, the float literal, whose value is
`13743895/137438953472`) and there are `t, s` in `[0,1]` with
`P0 + t*(P1-P0) = W0 + s*(W1-W0)` and `t` below the prior value; in that case the
new `*t_out` is that `t` (the only crossing parameter) and the reported normal is
`(-(W1-W0).y, (W1-W0).x)`, perpendicular to the wall segment; otherwise all
outputs are left unchanged. -/
theorem collision_line_lowers_iff (x0 y0 x1 y1 wx0 wy0 wx1 wy1 : ℚ) (out : LineOut) :
    ((collision_line x0 y0 x1 y1 wx0 wy0 wx1 wy1 out).t < out.t ↔
      ¬ (abs ((x1 - x0) * (wy1 - wy0) - (y1 - y0) * (wx1 - wx0)) < float_0_0001) ∧
      ∃ t s, segments_cross_at x0 y0 x1 y1 wx0 wy0 wx1 wy1 t s ∧ t < out.t) ∧
    (((collision_line x0 y0 x1 y1 wx0 wy0 wx1 wy1 out).t < out.t ∧
        (∃ s, segments_cross_at x0 y0 x1 y1 wx0 wy0 wx1 wy1
          (collision_line x0 y0 x1 y1 wx0 wy0 wx1 wy1 out).t s) ∧
        (∀ t s, segments_cross_at x0 y0 x1 y1 wx0 wy0 wx1 wy1 t s →
          t = (collision_line x0 y0 x1 y1 wx0 wy0 wx1 wy1 out).t) ∧
        (collision_line x0 y0 x1 y1 wx0 wy0 wx1 wy1 out).nx = -(wy1 - wy0) ∧
        (collision_line x0 y0 x1 y1 wx0 wy0 wx1 wy1 out).ny = wx1 - wx0 ∧
        (collision_line x0 y0 x1 y1 wx0 wy0 wx1 wy1 out).nx * (wx1 - wx0)
          + (collision_line x0 y0 x1 y1 wx0 wy0 wx1 wy1 out).ny * (wy1 - wy0) = 0) ∨
      (¬ (collision_line x0 y0 x1 y1 wx0 wy0 wx1 wy1 out).t < out.t ∧
        collision_line x0 y0 x1 y1 wx0 wy0 wx1 wy1 out = out)) := by
  rw [collision_line_eq]
  have hdef : (x1 - x0) * (wy1 - wy0) - (y1 - y0) * (wx1 - wx0)
      = line_d x0 y0 x1 y1 wx0 wy0 wx1 wy1 := rfl
  rw [hdef]
  by_cases hc : ¬ (abs (line_d x0 y0 x1 y1 wx0 wy0 wx1 wy1) < float_0_0001) ∧
      ¬ (line_t x0 y0 x1 y1 wx0 wy0 wx1 wy1 < 0 ∨ line_t x0 y0 x1 y1 wx0 wy0 wx1 wy1 > 1 ∨
          line_s x0 y0 x1 y1 wx0 wy0 wx1 wy1 < 0 ∨ line_s x0 y0 x1 y1 wx0 wy0 wx1 wy1 > 1) ∧
      line_t x0 y0 x1 y1 wx0 wy0 wx1 wy1 < out.t
  · rw [if_pos hc]
    obtain ⟨hpar, hrange, hlt⟩ := hc
    have hd := line_d_ne_zero _ _ _ _ _ _ _ _ hpar
    simp only [not_or, not_lt] at hrange
    obtain ⟨ht0, ht1, hs0, hs1⟩ := hrange
    have hcross : segments_cross_at x0 y0 x1 y1 wx0 wy0 wx1 wy1
        (line_t x0 y0 x1 y1 wx0 wy0 wx1 wy1) (line_s x0 y0 x1 y1 wx0 wy0 wx1 wy1) := by
      have := (segments_cross_at_iff x0 y0 x1 y1 wx0 wy0 wx1 wy1 _ _ hd).mpr ⟨rfl, rfl⟩
      exact ⟨ht0, ht1, hs0, hs1, this.1, this.2⟩
    refine ⟨⟨fun _ => ⟨hpar, _, _, hcross, hlt⟩, fun _ => hlt⟩, Or.inl ?_⟩
    refine ⟨hlt, ⟨_, hcross⟩, ?_, rfl, rfl, ?_⟩
    · intro t s hts
      exact ((segments_cross_at_iff x0 y0 x1 y1 wx0 wy0 wx1 wy1 t s hd).mp
        ⟨hts.2.2.2.2.1, hts.2.2.2.2.2⟩).1
    · show -(wy1 - wy0) * (wx1 - wx0) + (wx1 - wx0) * (wy1 - wy0) = 0
      ring
  · rw [if_neg hc]
    refine ⟨⟨fun h => absurd h (lt_irrefl _), ?_⟩, Or.inr ⟨lt_irrefl _, rfl⟩⟩
    rintro ⟨hpar, t, s, hts, hlt⟩
    exfalso
    have hd := line_d_ne_zero _ _ _ _ _ _ _ _ hpar
    obtain ⟨ht0, ht1, hs0, hs1, hx, hy⟩ := hts
    obtain ⟨ht, hs⟩ := (segments_cross_at_iff x0 y0 x1 y1 wx0 wy0 wx1 wy1 t s hd).mp ⟨hx, hy⟩
    apply hc
    refine ⟨hpar, ?_, ht ▸ hlt⟩
    rw [← ht, ← hs]
    simp only [not_or, not_lt]
    exact ⟨ht0, ht1, hs0, hs1⟩

/-! ## The weakest occupant of a full table -/

theorem entity_push_store_priority (state : State) (e : Entity) (k j : Nat) :
    ((state.store k e).entities j).priority =
      if j = k then e.priority else (state.entities j).priority := by
  by_cases hj : j = k <;> simp [State.store, hj]

theorem IsFirstMin.priority_eq {state : State} {n k : Nat} {m : Int}
    (hk : IsFirstMin state n k) (hm : IsMinPriority state n m) :
    (state.entities k).priority = m := by
  obtain ⟨⟨k0, hk0, hk0m⟩, hmin⟩ := hm
  have h1 : m ≤ (state.entities k).priority := hmin k hk.1
  have h2 : (state.entities k).priority ≤ m := by
    rw [← hk0m]; exact hk.2.1 k0 hk0
  exact le_antisymm h2 h1

theorem full_store_min : IsMinPriority full_store 256 (-1) :=
  ⟨⟨1, by decide, by decide⟩, fun j hj => full_store_firstMin.2.1 j hj⟩

/-- C25: for every store with `num_entities = 256` and every entity `e`, with `m`
the minimum priority among the occupants before `entity_push`, every minimum
priority among the occupants after it is at least `m`, and the sum of the
occupants' priorities strictly increases whenever `entity_push` returns 0. -/
theorem entity_push_never_weakens (state : State) (e : Entity) (m : Int)
    (hn : state.num_entities = 256) (hm : IsMinPriority state 256 m) :
    (∀ m1, IsMinPriority (entity_push state e).2 256 m1 → m ≤ m1) ∧
    ((entity_push state e).1 = 0 →
      priority_sum state 256 < priority_sum (entity_push state e).2 256) := by
  have hscan := entity_push_scan_isFirstMin state (by omega)
  rw [hn] at hscan
  have hkm := hscan.priority_eq hm
  rw [entity_push_full state e _ hn hscan]
  by_cases hge : (state.entities (entity_push_scan state)).priority ≥ e.priority
  · rw [if_pos hge]
    refine ⟨?_, fun h => absurd (show (1 : Int) = 0 from h) (by decide)⟩
    rintro m1 ⟨⟨k1, hk1, hk1m⟩, _⟩
    rw [← hk1m]
    exact hm.2 k1 hk1
  · rw [if_neg hge]
    have hlt : m < e.priority := by rw [← hkm]; exact not_le.mp hge
    refine ⟨?_, fun _ => ?_⟩
    · rintro m1 ⟨⟨k1, hk1, hk1m⟩, _⟩
      rw [← hk1m]
      show m ≤ ((state.store (entity_push_scan state) e).entities k1).priority
      rw [entity_push_store_priority]
      split_ifs
      · exact le_of_lt hlt
      · exact hm.2 k1 hk1
    · show priority_sum state 256 < priority_sum (state.store (entity_push_scan state) e) 256
      unfold priority_sum
      apply Finset.sum_lt_sum
      · intro j _
        rw [entity_push_store_priority]
        split_ifs with hj
        · rw [hj, hkm]; exact le_of_lt hlt
        · exact le_refl _
      · refine ⟨entity_push_scan state, Finset.mem_range.mpr hscan.1, ?_⟩
        rw [entity_push_store_priority, if_pos rfl, hkm]
        exact hlt

theorem entity_push_never_weakens_witness :
    full_store.num_entities = 256 ∧ IsMinPriority full_store 256 (-1) ∧
    (∀ m1, IsMinPriority (entity_push full_store (entity_with_priority PRIORITY_MAP)).2 256 m1
      → (-1 : Int) ≤ m1) ∧
    ((entity_push full_store (entity_with_priority PRIORITY_MAP)).1 = 0 →
      priority_sum full_store 256
        < priority_sum (entity_push full_store (entity_with_priority PRIORITY_MAP)).2 256) :=
  ⟨rfl, full_store_min,
    entity_push_never_weakens full_store (entity_with_priority PRIORITY_MAP) (-1) rfl
      full_store_min⟩

/-! ## `physics_rect_collide` -/

/-- C26 (failing input): the rectangles `a = (0,0)-(1,1)` and `b = (0,0)-(1,2)`,
both with `x0 ≤ x1` and `y0 ≤ y1`, overlap, yet `physics_rect_collide(a, b)`
returns 0, while `physics_rect_collide(b, a)` returns 1. -/
theorem physics_rect_collide_misses_overlap :
    rect_overlap ⟨0, 0, 1, 1⟩ ⟨0, 0, 1, 2⟩ ∧
    physics_rect_collide ⟨0, 0, 1, 1⟩ ⟨0, 0, 1, 2⟩ = 0 ∧
    physics_rect_collide ⟨0, 0, 1, 2⟩ ⟨0, 0, 1, 1⟩ = 1 := by
  refine ⟨?_, ?_, ?_⟩
  · norm_num [rect_overlap]
  · norm_num [physics_rect_collide]
  · norm_num [physics_rect_collide]

/-! ## `stack_push_ex` -/

theorem nat_ldiff_two_pow_sub_one (m k : Nat) : Nat.ldiff m (2 ^ k - 1) = 2 ^ k * (m / 2 ^ k) := by
  apply Nat.eq_of_testBit_eq
  intro i
  rw [Nat.testBit_ldiff, Nat.testBit_two_pow_sub_one, Nat.testBit_mul_pow_two,
    ← Nat.shiftRight_eq_div_pow, Nat.testBit_shiftRight]
  by_cases hi : i < k
  · have : ¬ k ≤ i := by omega
    simp [hi, this]
  · have hki : k ≤ i := by omega
    have e : k + (i - k) = i := by omega
    simp [hi, hki, e]

theorem mem__align_two_pow (x : Int) (k : Nat) (hx : 0 ≤ x) :
    mem__align x (2 ^ k) = 2 ^ k * ((x + (2 ^ k - 1)) / 2 ^ k) := by
  obtain ⟨n, rfl⟩ := Int.eq_ofNat_of_zero_le hx
  have hpos : 0 < 2 ^ k := Nat.two_pow_pos k
  have h1 : ((2 : Int) ^ k - 1) = ((2 ^ k - 1 : Nat) : Int) := by
    rw [Nat.cast_sub hpos]; simp
  have h2 : (n : Int) + ((2 ^ k - 1 : Nat) : Int) = ((n + (2 ^ k - 1) : Nat) : Int) := by
    push_cast; rfl
  unfold mem__align
  rw [h1, h2]
  show ((Nat.ldiff (n + (2 ^ k - 1)) (2 ^ k - 1) : Nat) : Int) = _
  rw [nat_ldiff_two_pow_sub_one]
  push_cast
  rfl

theorem isRoundUp_formula (x a : Int) (ha : 0 < a) :
    IsRoundUp x a (a * ((x + (a - 1)) / a)) := by
  refine ⟨Dvd.intro _ rfl, ?_, ?_⟩
  · have h1 := Int.emod_add_ediv (x + (a - 1)) a
    have h2 := Int.emod_lt_of_pos (x + (a - 1)) ha
    linarith
  · have h1 := Int.emod_add_ediv (x + (a - 1)) a
    have h2 := Int.emod_nonneg (x + (a - 1)) (ne_of_gt ha)
    linarith

theorem stack_push_ex_eq (stack : Stack) (mem_errno size : Int) (k : Nat)
    (hc : 0 ≤ stack.curr) :
    stack_push_ex stack mem_errno size (2 ^ k) =
      if 2 ^ k * ((stack.curr + (2 ^ k - 1)) / 2 ^ k) + size > stack.end_ then
        (0, { stack with curr := 2 ^ k * ((stack.curr + (2 ^ k - 1)) / 2 ^ k) }, MEM_FULL)
      else
        (2 ^ k * ((stack.curr + (2 ^ k - 1)) / 2 ^ k),
          { stack with curr := 2 ^ k * ((stack.curr + (2 ^ k - 1)) / 2 ^ k) + size },
          mem_errno) := by
  simp only [stack_push_ex, mem__align_two_pow stack.curr k hc]
  split_ifs
  · rfl
  · simp

theorem stack_push_ex_ptr_ge (stack : Stack) (mem_errno size : Int) (k : Nat)
    (hc : 0 ≤ stack.curr)
    (hne : (stack_push_ex stack mem_errno size (2 ^ k)).1 ≠ 0) :
    stack.curr ≤ (stack_push_ex stack mem_errno size (2 ^ k)).1 := by
  rw [stack_push_ex_eq stack mem_errno size k hc] at hne ⊢
  split_ifs at hne ⊢ with h
  · exact absurd rfl hne
  · exact (isRoundUp_formula stack.curr (2 ^ k) (by positivity)).2.1

/-- C24: for a stack with `begin ≤ curr ≤ end` (`begin` the address of a memory
block, hence not null), `align = 2^k` and `size ≥ 0`, with `p` the address `curr`
rounded up to the next multiple of `align`: `stack_push_ex` returns a non-null
address if and only if `p + size ≤ end`; in that case it returns `p`, which is a
multiple of `align` with `curr ≤ p` and `p + size ≤ end`, the new `curr` is
`p + size`, and every later successful push returns an address at or above
`p + size`; otherwise it returns null. -/
theorem stack_push_ex_spec (stack : Stack) (mem_errno size : Int) (k : Nat)
    (hb : 0 < stack.begin_) (h1 : stack.begin_ ≤ stack.curr) (_h2 : stack.curr ≤ stack.end_)
    (hsize : 0 ≤ size) :
    ∃ p, IsRoundUp stack.curr (2 ^ k) p ∧
      ((stack_push_ex stack mem_errno size (2 ^ k)).1 ≠ 0 ↔ p + size ≤ stack.end_) ∧
      ((p + size ≤ stack.end_ ∧
          (stack_push_ex stack mem_errno size (2 ^ k)).1 = p ∧
          (2 : Int) ^ k ∣ p ∧ stack.curr ≤ p ∧
          (stack_push_ex stack mem_errno size (2 ^ k)).2.1.curr = p + size ∧
          (stack_push_ex stack mem_errno size (2 ^ k)).2.1.begin_ = stack.begin_ ∧
          (stack_push_ex stack mem_errno size (2 ^ k)).2.1.end_ = stack.end_ ∧
          (∀ (size2 : Int) (k2 : Nat), 0 ≤ size2 →
            (stack_push_ex (stack_push_ex stack mem_errno size (2 ^ k)).2.1
              (stack_push_ex stack mem_errno size (2 ^ k)).2.2 size2 (2 ^ k2)).1 ≠ 0 →
            p + size ≤ (stack_push_ex (stack_push_ex stack mem_errno size (2 ^ k)).2.1
              (stack_push_ex stack mem_errno size (2 ^ k)).2.2 size2 (2 ^ k2)).1)) ∨
        (¬ p + size ≤ stack.end_ ∧ (stack_push_ex stack mem_errno size (2 ^ k)).1 = 0)) := by
  have hc : 0 ≤ stack.curr := by linarith
  have hround := isRoundUp_formula stack.curr (2 ^ k) (by positivity)
  have hp : 0 < 2 ^ k * ((stack.curr + (2 ^ k - 1)) / 2 ^ k) := by
    have := hround.2.1; linarith
  refine ⟨2 ^ k * ((stack.curr + (2 ^ k - 1)) / 2 ^ k), hround, ?_, ?_⟩
  · rw [stack_push_ex_eq stack mem_errno size k hc]
    split_ifs with h
    · constructor
      · intro hne; exact absurd rfl hne
      · intro hle; exact absurd hle (not_le.mpr h)
    · exact ⟨fun _ => not_lt.mp h, fun _ => ne_of_gt hp⟩
  · by_cases h : 2 ^ k * ((stack.curr + (2 ^ k - 1)) / 2 ^ k) + size > stack.end_
    · right
      rw [stack_push_ex_eq stack mem_errno size k hc, if_pos h]
      exact ⟨not_le.mpr h, rfl⟩
    · left
      have hpush := stack_push_ex_eq stack mem_errno size k hc
      rw [if_neg h] at hpush
      rw [hpush]
      refine ⟨not_lt.mp h, rfl, hround.1, hround.2.1, rfl, rfl, rfl, ?_⟩
      intro size2 k2 _ hne
      have hc2 : 0 ≤ 2 ^ k * ((stack.curr + (2 ^ k - 1)) / 2 ^ k) + size := by linarith
      exact stack_push_ex_ptr_ge
        { stack with curr := 2 ^ k * ((stack.curr + (2 ^ k - 1)) / 2 ^ k) + size }
        mem_errno size2 k2 hc2 hne

theorem stack_push_ex_spec_witness :
    (0 : Int) < (⟨16, 64, 17⟩ : Stack).begin_ ∧
    (⟨16, 64, 17⟩ : Stack).begin_ ≤ (⟨16, 64, 17⟩ : Stack).curr ∧
    (⟨16, 64, 17⟩ : Stack).curr ≤ (⟨16, 64, 17⟩ : Stack).end_ ∧ (0 : Int) ≤ 8 ∧
    stack_push_ex ⟨16, 64, 17⟩ 0 8 (2 ^ 3) = (24, ⟨16, 64, 32⟩, 0) ∧
    ∃ p, IsRoundUp (⟨16, 64, 17⟩ : Stack).curr (2 ^ 3) p ∧
      ((stack_push_ex ⟨16, 64, 17⟩ 0 8 (2 ^ 3)).1 ≠ 0 ↔ p + 8 ≤ (⟨16, 64, 17⟩ : Stack).end_) := by
  obtain ⟨p, hp, hiff, _⟩ :=
    stack_push_ex_spec ⟨16, 64, 17⟩ 0 8 3 (by decide) (by decide) (by decide) (by decide)
  have heval : stack_push_ex ⟨16, 64, 17⟩ 0 8 (2 ^ 3) = (24, ⟨16, 64, 32⟩, 0) := by
    rw [stack_push_ex_eq ⟨16, 64, 17⟩ 0 8 3 (by decide)]
    norm_num
  exact ⟨by decide, by decide, by decide, by decide, heval, p, hp, hiff⟩

/-! ## The resolver in float32 arithmetic: the glide velocity -/

theorem collision_plane_fl_id (x0 y0 z0 x1 y1 z1 px0 py0 pz0 px1 py1 pz1 px2 py2 pz2 : ℚ)
    (out : PlaneOut) :
    collision_plane_fl id x0 y0 z0 x1 y1 z1 px0 py0 pz0 px1 py1 pz1 px2 py2 pz2 out =
      collision_plane x0 y0 z0 x1 y1 z1 px0 py0 pz0 px1 py1 pz1 px2 py2 pz2 out := rfl

theorem box_test_fl_id (x0 y0 z0 x1 y1 z1 wx0 wy0 wz0 wx1 wy1 wz1 nx_tmp ny_tmp nz_tmp : ℚ) :
    box_test_fl id x0 y0 z0 x1 y1 z1 wx0 wy0 wz0 wx1 wy1 wz1 nx_tmp ny_tmp nz_tmp =
      box_test x0 y0 z0 x1 y1 z1 wx0 wy0 wz0 wx1 wy1 wz1 nx_tmp ny_tmp nz_tmp := by
  simp only [box_test_fl, box_test, collision_plane_fl_id]

theorem target_test_fl_id (p0 p1 : v3) (target : Entity) (w h d : ℚ) :
    target_test_fl id p0 p1 target w h d = target_test p0 p1 target w h d := by
  simp only [target_test_fl, target_test, box_test_fl_id, expand_hitbox_fl, expand_hitbox, id]

theorem iteration_scan_fl_id (s : State) (ei : Nat) (w h d dt : ℚ) :
    iteration_scan_fl id s ei w h d dt = iteration_scan s ei w h d dt := by
  have hstep : ∀ p0 p1, handle_collision_step_fl id s ei p0 p1 w h d
      = handle_collision_step s ei p0 p1 w h d := by
    intro p0 p1
    funext near j
    simp only [handle_collision_step_fl, handle_collision_step, target_test_fl_id]
  simp only [iteration_scan_fl, iteration_scan, handle_collision_scan, hstep, sweep_start_fl,
    sweep_end_fl, sweep_start, sweep_end, id]

theorem handle_collision_iter_fl_id (normalize : ℚ → ℚ → ℚ × ℚ) (s : State) (ei : Nat)
    (w h d dt : ℚ) :
    handle_collision_iter_fl id normalize s ei w h d dt
      = handle_collision_iter normalize s ei w h d dt := by
  have hscan := iteration_scan_fl_id s ei w h d dt
  unfold iteration_scan at hscan
  simp only [handle_collision_iter_fl, handle_collision_iter, hscan, sweep_delta_fl,
    sweep_start_fl, sweep_end_fl, sweep_start, sweep_end, id]

theorem handle_collision_iter_fl_wall_vel (fl : ℚ → ℚ) (normalize : ℚ → ℚ → ℚ × ℚ) (s : State)
    (ei : Nat) (w h d dt : ℚ) (k : Nat)
    (hhit : (iteration_scan_fl fl s ei w h d dt).hit = some k)
    (hwall : (s.entities k).type = ENTITY_TYPE_WALL) :
    ∃ s1, handle_collision_iter_fl fl normalize s ei w h d dt = some s1 ∧
      (s1.entities ei).vel =
        glide_velocity_fl fl (sweep_delta_fl fl (s.entities ei) w h d dt)
          (hit_normal normalize (iteration_scan_fl fl s ei w h d dt)) dt := by
  simp only [handle_collision_iter_fl, hhit, hwall, if_true]
  refine ⟨_, rfl, ?_⟩
  simp [State.store, glide_velocity_fl, hit_normal]

set_option maxRecDepth 1000000 in
unseal Rat.add Rat.mul Rat.inv Rat.sub in
theorem float_0_0001_eq : f32_round (1/10000) = float_0_0001 := by
  decide

set_option maxRecDepth 1000000 in
unseal Rat.add Rat.mul Rat.inv Rat.sub in
theorem rounding_store_inputs :
    f32_round (16385/16384) = 16385/16384 ∧ f32_round (4097/2) = 4097/2 ∧
    f32_round (1/2) = 1/2 ∧ f32_round (1/1024) = 1/1024 ∧ f32_round (3/2048) = 3/2048 ∧
    f32_round 2048 = 2048 ∧ f32_round (1/8) = 1/8 := by
  decide

set_option maxRecDepth 1000000 in
unseal Rat.add Rat.mul Rat.inv Rat.sub in
theorem rounding_store_extents :
    hitbox_w_fl f32_round (rounding_store.entities 0) = 0 ∧
    hitbox_h_fl f32_round (rounding_store.entities 0) = 0 ∧
    hitbox_d_fl f32_round (rounding_store.entities 0) = 0 := by
  decide

set_option maxRecDepth 1000000 in
unseal Rat.add Rat.mul Rat.inv Rat.sub in
theorem rounding_store_scan :
    iteration_scan_fl f32_round rounding_store 0 0 0 0 (1/8) = ⟨some 1, 1/2, 1, 0, 0⟩ := by
  decide

set_option maxRecDepth 1000000 in
unseal Rat.add Rat.mul Rat.inv Rat.sub in
theorem rounding_store_delta :
    sweep_delta_fl f32_round (rounding_store.entities 0) 0 0 0 (1/8) = ⟨1/8192, 1/4096, 0⟩ := by
  decide

set_option maxRecDepth 1000000 in
unseal Rat.add Rat.mul Rat.inv Rat.sub in
theorem rounding_store_glide :
    glide_velocity_fl f32_round ⟨1/8192, 1/4096, 0⟩ ⟨1, 0, 0⟩ (1/8) = ⟨0, 1/512, 0⟩ := by
  decide

theorem rounding_store_wall : (rounding_store.entities 1).type = ENTITY_TYPE_WALL := by
  simp [rounding_store, entity_at]

theorem rounding_store_vel : (rounding_store.entities 0).vel = ⟨1/1024, 3/2048, 0⟩ := by
  simp [rounding_store, entity_at]

/-- C14 (as stated, refuted): in binary32 arithmetic, on `rounding_store` (all
inputs binary32 values, half extents 0, `dt = 1/8 > 0`) the nearest hit of the
iteration is the Wall in slot 1 at `t = 1/2` with unit normal `n = (1,0,0)`.  The
sum `y0 + vel.y*dt = 2048.5 + 3*2^-14` rounds to `2048.5 + 2^-12`, so the movement
vector is `v = (2^-13, 2^-12, 0)` and not `vel*dt`.  The velocity set by the
iteration is `(0, 2^-9, 0)`: along `(0,1,0)`, which is perpendicular to `n`, its
component `2^-9` differs from the old velocity's `3*2^-11`, and its squared
magnitude `2^-18` exceeds the old `13*2^-22`. -/
theorem handle_collision_glide_rounding :
    (0 : ℚ) < 1/8 ∧
    hitbox_w_fl f32_round (rounding_store.entities 0) = 0 ∧
    hitbox_h_fl f32_round (rounding_store.entities 0) = 0 ∧
    hitbox_d_fl f32_round (rounding_store.entities 0) = 0 ∧
    (iteration_scan_fl f32_round rounding_store 0 0 0 0 (1/8)).hit = some 1 ∧
    (iteration_scan_fl f32_round rounding_store 0 0 0 0 (1/8)).t = 1/2 ∧
    (rounding_store.entities 1).type = ENTITY_TYPE_WALL ∧
    hit_normal normalize_xy (iteration_scan_fl f32_round rounding_store 0 0 0 0 (1/8))
      = ⟨1, 0, 0⟩ ∧
    v3_dot (⟨1, 0, 0⟩ : v3) ⟨1, 0, 0⟩ = 1 ∧
    (rounding_store.entities 0).vel = ⟨1/1024, 3/2048, 0⟩ ∧
    sweep_delta_fl f32_round (rounding_store.entities 0) 0 0 0 (1/8) = ⟨1/8192, 1/4096, 0⟩ ∧
    ∃ s1, handle_collision_iter_fl f32_round normalize_xy rounding_store 0 0 0 0 (1/8) = some s1 ∧
      (s1.entities 0).vel = ⟨0, 1/512, 0⟩ ∧
      v3_dot (⟨0, 1, 0⟩ : v3) ⟨1, 0, 0⟩ = 0 ∧
      v3_dot (s1.entities 0).vel ⟨0, 1, 0⟩ ≠ v3_dot (rounding_store.entities 0).vel ⟨0, 1, 0⟩ ∧
      v3_dot (rounding_store.entities 0).vel (rounding_store.entities 0).vel
        < v3_dot (s1.entities 0).vel (s1.entities 0).vel := by
  have hhit : (iteration_scan_fl f32_round rounding_store 0 0 0 0 (1/8)).hit = some 1 := by
    rw [rounding_store_scan]
  have hn : hit_normal normalize_xy (iteration_scan_fl f32_round rounding_store 0 0 0 0 (1/8))
      = ⟨1, 0, 0⟩ := by
    rw [rounding_store_scan]
    simp [hit_normal, normalize_xy_one_zero]
  obtain ⟨s1, hs1, hvel⟩ := handle_collision_iter_fl_wall_vel f32_round normalize_xy
    rounding_store 0 0 0 0 (1/8) 1 hhit rounding_store_wall
  rw [hn, rounding_store_delta, rounding_store_glide] at hvel
  refine ⟨by norm_num, rounding_store_extents.1, rounding_store_extents.2.1,
    rounding_store_extents.2.2, hhit, by rw [rounding_store_scan], rounding_store_wall, hn,
    by norm_num [v3_dot], rounding_store_vel, rounding_store_delta, s1, hs1, hvel,
    by norm_num [v3_dot], ?_, ?_⟩
  · rw [hvel, rounding_store_vel]; norm_num [v3_dot]
  · rw [hvel, rounding_store_vel]; norm_num [v3_dot]

/-! ## `collision_line`: the threshold of the parallel test -/

set_option maxRecDepth 1000000 in
unseal Rat.add Rat.mul Rat.inv Rat.sub in
theorem collision_line_at_threshold :
    collision_line 0 0 1 0 (1/2) (-(float_0_0001 / 2)) (1/2) (float_0_0001 / 2) ⟨2, 0, 0⟩
      = ⟨1/2, -float_0_0001, 0⟩ ∧
    f32_round (float_0_0001 / 2) = float_0_0001 / 2 := by
  decide

/-- C22 (as stated, refuted): for the segment `(0,0) -> (1,0)` and the wall
segment `(1/2, -a/2) -> (1/2, a/2)` with `a = 13743895/137438953472`, the value of
the literal `0.0001f`, the cross product of the directions is `a`, which is below
`0.0001`; yet `collision_line`, started from `*t_out = 2`, lowers `*t_out` to
`1/2`. -/
theorem collision_line_lowers_below_decimal_threshold :
    (collision_line 0 0 1 0 (1/2) (-(float_0_0001 / 2)) (1/2) (float_0_0001 / 2) ⟨2, 0, 0⟩).t
      = 1/2 ∧
    (collision_line 0 0 1 0 (1/2) (-(float_0_0001 / 2)) (1/2) (float_0_0001 / 2) ⟨2, 0, 0⟩).t
      < (⟨2, 0, 0⟩ : LineOut).t ∧
    ¬ (abs ((1 - 0) * (float_0_0001 / 2 - (-(float_0_0001 / 2))) - (0 - 0) * (1/2 - 1/2))
        ≥ (1/10000 : ℚ)) := by
  have h := collision_line_at_threshold.1
  refine ⟨by rw [h], by rw [h]; norm_num, ?_⟩
  have habs : abs ((1 - 0) * (float_0_0001 / 2 - (-(float_0_0001 / 2))) - (0 - 0) * (1/2 - 1/2))
      = float_0_0001 := by
    have hpos : (0 : ℚ) < float_0_0001 := by norm_num [float_0_0001]
    have e : (1 - 0) * (float_0_0001 / 2 - (-(float_0_0001 / 2))) - (0 - 0) * (1/2 - 1/2)
        = float_0_0001 := by ring
    rw [e, abs_of_pos hpos]
  rw [habs]
  norm_num [float_0_0001]
